import Mathlib

/-
  Verification development for the CD5220 VFD display control library
  (cd5220.py): the mode-tracking controller, the byte-level command codec,
  the hardware simulator that replays the literal byte stream, and the
  diff-based frame renderer (DiffAnimator).

  The embedding mirrors the Python source:
  * `DisplaySimulator` is the in-memory 2x20 grid model with its ancillary
    state (mode mirror, window mirror, viewport accumulation buffer,
    brightness, display/cursor flags, advisory scroll text).
  * `SimCore` bundles the simulator with the controller-side cursor mirror
    fields `_sim_x` / `_sim_y`; `parseAndApplyCommand` is the byte-prefix
    dispatcher `CD5220._parse_and_apply_command` acting on exactly this data.
  * `Ctrl` is the controller state (`_current_mode`, `_active_window`, the
    simulator core, the list of byte commands successfully written to the
    transport, and a list of pending transport-write outcomes used to model
    serial faults; an empty list means every write succeeds).
  * Operations return the post-call state together with an optional error,
    modelling Python's in-place mutation plus raised exception: mutations
    performed before a raise persist.
  * Delays, logging, console rendering, the animator's optional mirror
    simulator and the unused `frame_history` are not modelled: no claim
    depends on them.

  Machine bytes are `Nat` (each in 0..255 as produced by the controller);
  text is `List Char`.
-/

inductive DisplayMode where
  | normal
  | string
  | scroll
  | viewport
deriving DecidableEq, Repr

/-- The distinct raise sites of `CD5220DisplayError` in the source, tagged by
their message. The spec's taxonomy maps `invalidBrightness`, `rowRange`,
`colRange`, `lineRange`, `windowRange` to ValidationError; `noWindows`,
`mustBeViewport`, `noWindowForLine` to StateError; `requiresNormal` to
ModeError; `transport` to TransportError. -/
inductive CDError where
  | invalidBrightness
  | rowRange
  | colRange
  | lineRange
  | windowRange
  | requiresNormal
  | noWindows
  | mustBeViewport
  | noWindowForLine
  | transport
deriving DecidableEq, Repr

/-- A blank 20-character display row. -/
def blankRow : List Char := List.replicate 20 ' '

/-- Python `text.encode('ascii', 'ignore')`: non-ASCII characters are dropped. -/
def encodeAscii (text : List Char) : List Nat :=
  (text.filter (fun ch => ch.toNat ≤ 127)).map Char.toNat

/-- Python `bs.decode('ascii', 'ignore')`: bytes ≥ 128 are dropped. -/
def decodeIgnore (bs : List Nat) : List Char :=
  (bs.filter (fun b => b ≤ 127)).map Char.ofNat

/-- Python `bs.decode('ascii')` in the printable-text branch; the guard has
already established every byte is in 32..126. -/
def decodeStrict (bs : List Nat) : List Char :=
  bs.map Char.ofNat

/-- Python `text.ljust(20)`. -/
def ljust20 (text : List Char) : List Char :=
  text ++ List.replicate (20 - text.length) ' '

/-- Python `s.ljust(w)` for a possibly non-positive `w` (no-op when
`w ≤ len s`). -/
def ljustI (s : List Char) (w : Int) : List Char :=
  s ++ List.replicate (w.toNat - s.length) ' '

/-- Python `s[-w:]` for an arbitrary integer `w`: the last `w` characters when
`w > 0` (all of `s` if shorter), all of `s` when `w = 0`, and `s[(-w):]`
when `w < 0`. -/
def pyLastSlice (s : List Char) (w : Int) : List Char :=
  if 0 < w then s.drop (s.length - w.toNat) else s.drop (-w).toNat

/-- Replace the segment of `row` starting at index `p` by `seg`
(specification helper for reasoning about window repaints). -/
def spliceRow (row : List Char) (p : Nat) (seg : List Char) : List Char :=
  row.take p ++ seg ++ row.drop (p + seg.length)

/-- The characters at 1-based columns `s..e` of a row. -/
def regionRow (row : List Char) (s e : Nat) : List Char :=
  (row.drop (s - 1)).take (e - s + 1)

structure DisplaySimulator where
  line1 : List Char
  line2 : List Char
  currentMode : DisplayMode
  activeWindow : Option (Nat × Nat × Nat)
  scrollText : Option (List Char)
  viewportBuffer : List Char
  brightness : Nat
  displayOn : Bool
  cursorVisible : Bool
deriving DecidableEq, Repr

/-- Source `DisplaySimulator.__init__`. -/
def DisplaySimulator.start : DisplaySimulator :=
  { line1 := blankRow, line2 := blankRow, currentMode := DisplayMode.normal,
    activeWindow := none, scrollText := none, viewportBuffer := [],
    brightness := 4, displayOn := true, cursorVisible := false }

/-- Source `DisplaySimulator.clear`. -/
def DisplaySimulator.clear (sim : DisplaySimulator) : DisplaySimulator :=
  { sim with line1 := blankRow, line2 := blankRow, viewportBuffer := [] }

/-- Source `DisplaySimulator.set_char`: bounds-guarded single-cell write.
Coordinates are `Int` because the source can compute negative coordinates
(`x-1`, `line-1`), which Python's `0 <= x < 20` guard rejects. -/
def DisplaySimulator.setChar (sim : DisplaySimulator) (x y : Int) (ch : Char) :
    DisplaySimulator :=
  if 0 ≤ x ∧ x < 20 ∧ 0 ≤ y ∧ y < 2 then
    if y = 0 then { sim with line1 := sim.line1.set x.toNat ch }
    else { sim with line2 := sim.line2.set x.toNat ch }
  else sim

/-- Source `DisplaySimulator.set_mode`. -/
def DisplaySimulator.setMode (sim : DisplaySimulator) (mode : DisplayMode) :
    DisplaySimulator :=
  { sim with currentMode := mode }

/-- Source `DisplaySimulator.set_window`: records the window and resets the viewport
accumulation buffer. -/
def DisplaySimulator.setWindow (sim : DisplaySimulator) (line s e : Nat) :
    DisplaySimulator :=
  { sim with activeWindow := some (line, s, e), viewportBuffer := [] }

/-- Source `DisplaySimulator.clear_window_state`. -/
def DisplaySimulator.clearWindowState (sim : DisplaySimulator) : DisplaySimulator :=
  { sim with activeWindow := none, viewportBuffer := [] }

/-- Source `DisplaySimulator.set_scroll_text`. -/
def DisplaySimulator.setScrollText (sim : DisplaySimulator) (text : List Char) :
    DisplaySimulator :=
  { sim with scrollText := some text }

/-- Source `DisplaySimulator.set_brightness_level`. -/
def DisplaySimulator.setBrightnessLevel (sim : DisplaySimulator) (level : Nat) :
    DisplaySimulator :=
  { sim with brightness := level }

/-- Source `DisplaySimulator.set_display_on`. -/
def DisplaySimulator.setDisplayOn (sim : DisplaySimulator) (flag : Bool) :
    DisplaySimulator :=
  { sim with displayOn := flag }

/-- Source `DisplaySimulator.set_cursor_visible`. -/
def DisplaySimulator.setCursorVisible (sim : DisplaySimulator) (v : Bool) :
    DisplaySimulator :=
  { sim with cursorVisible := v }

/-- Row accessor by 1-based line number (line 1 upper, anything else lower,
matching the places the source indexes `lines[line - 1]` with `line ∈ {1,2}`). -/
def rowOf (sim : DisplaySimulator) (l : Nat) : List Char :=
  if l = 1 then sim.line1 else sim.line2

/-- The repaint loop of the viewport branch:
`for i, c in enumerate(padded): set_char(start - 1 + i, line - 1, c)`,
written with a running x-coordinate instead of `enumerate`. -/
def writeWindowAux (line : Int) : DisplaySimulator → List Char → Int → DisplaySimulator
  | sim, [], _ => sim
  | sim, ch :: rest, x => writeWindowAux line (sim.setChar x (line - 1) ch) rest (x + 1)

def DisplaySimulator.writeWindow (sim : DisplaySimulator) (line s : Nat)
    (padded : List Char) : DisplaySimulator :=
  writeWindowAux (line : Int) sim padded ((s : Int) - 1)

/-- The simulator-facing state mutated by `_parse_and_apply_command`: the
`DisplaySimulator` plus the controller's cursor mirror `_sim_x` / `_sim_y`. -/
structure SimCore where
  sim : DisplaySimulator
  simX : Nat
  simY : Nat
deriving DecidableEq, Repr

-- Command byte constants (hex in the source; decimal here).
def CMD_CLEAR : List Nat := [12]                      -- 0C
def CMD_CANCEL : List Nat := [24]                     -- 18
def CMD_INIT : List Nat := [27, 64]                   -- 1B 40 (CMD_INITIALIZE)
def CMD_OVERWRITE_MODE : List Nat := [27, 17]         -- 1B 11
def CMD_VERTICAL_SCROLL : List Nat := [27, 18]        -- 1B 12
def CMD_HORIZONTAL_SCROLL : List Nat := [27, 19]      -- 1B 13
def CMD_CURSOR_ON : List Nat := [27, 95, 1]           -- 1B 5F 01
def CMD_CURSOR_OFF : List Nat := [27, 95, 0]          -- 1B 5F 00
def CMD_CURSOR_POSITION : List Nat := [27, 108]       -- 1B 6C
def CMD_CURSOR_UP : List Nat := [27, 91, 65]          -- 1B 5B 41
def CMD_CURSOR_DOWN : List Nat := [27, 91, 66]        -- 1B 5B 42
def CMD_CURSOR_LEFT : List Nat := [27, 91, 68]        -- 1B 5B 44
def CMD_CURSOR_RIGHT : List Nat := [27, 91, 67]       -- 1B 5B 43
def CMD_CURSOR_HOME : List Nat := [27, 91, 72]        -- 1B 5B 48
def CMD_BRIGHTNESS : List Nat := [27, 42]             -- 1B 2A
def CMD_DISPLAY_ON : List Nat := [27, 61]             -- 1B 3D
def CMD_DISPLAY_OFF : List Nat := [27, 60]            -- 1B 3C
def CMD_STRING_UPPER : List Nat := [27, 81, 65]       -- 1B 51 41
def CMD_STRING_LOWER : List Nat := [27, 81, 66]       -- 1B 51 42
def CMD_SCROLL_MARQUEE : List Nat := [27, 81, 68]     -- 1B 51 44
def CMD_WINDOW_SET : List Nat := [27, 87]             -- 1B 57

/-- One character of the printable-text branch of
`_parse_and_apply_command`: viewport accumulation / repaint or plain cursor
write, then cursor advance with wrap to the next row past column 20. -/
def applyPrintableChar (core : SimCore) (ch : Char) : SimCore :=
  let core1 :=
    match core.sim.activeWindow with
    | some (line, startc, endc) =>
        if core.sim.currentMode = DisplayMode.viewport ∧ core.simY = line then
          let width : Int := (endc : Int) - (startc : Int) + 1
          let buf := core.sim.viewportBuffer ++ [ch]
          let padded := ljustI (pyLastSlice buf width) width
          { core with sim :=
              (DisplaySimulator.writeWindow { core.sim with viewportBuffer := buf }
                line startc padded) }
        else if core.sim.currentMode ≠ DisplayMode.viewport then
          { core with sim :=
              core.sim.setChar ((core.simX : Int) - 1) ((core.simY : Int) - 1) ch }
        else core
    | none =>
        if core.sim.currentMode ≠ DisplayMode.viewport then
          { core with sim :=
              core.sim.setChar ((core.simX : Int) - 1) ((core.simY : Int) - 1) ch }
        else core
  let core2 := { core1 with simX := core1.simX + 1 }
  if 20 < core2.simX then
    { core2 with simX := 1,
                 simY := if core2.simY < 2 then core2.simY + 1 else core2.simY }
  else core2

/-- Source `CD5220._parse_and_apply_command`: sequential dispatch on the literal
byte string, in source order. The `CMD_CANCEL` branch assigns
`lines[_sim_y - 1]`; Python's negative indexing makes `_sim_y = 0` hit the
lower row, and `_sim_y > 2` would raise `IndexError` (unreachable through the
public API, modelled as a no-op on the grid). -/
def parseAndApplyCommand (core : SimCore) (command : List Nat) : SimCore :=
  if command = CMD_CLEAR ∨ command = CMD_INIT then
    { sim := ((core.sim.clear).setMode DisplayMode.normal).clearWindowState,
      simX := 1, simY := 1 }
  else if command = CMD_CANCEL then
    let sim :=
      if core.simY = 1 then { core.sim with line1 := blankRow }
      else if core.simY = 2 ∨ core.simY = 0 then { core.sim with line2 := blankRow }
      else core.sim
    { core with sim := { (sim.setMode DisplayMode.normal) with viewportBuffer := [] },
                simX := 1 }
  else if CMD_STRING_UPPER.isPrefixOf command ∧ 24 ≤ command.length then
    let text := decodeIgnore ((command.drop 3).dropLast)
    { sim := { core.sim with line1 := ljust20 text, currentMode := DisplayMode.string },
      simX := 1, simY := 1 }
  else if CMD_STRING_LOWER.isPrefixOf command ∧ 24 ≤ command.length then
    let text := decodeIgnore ((command.drop 3).dropLast)
    { sim := { core.sim with line2 := ljust20 text, currentMode := DisplayMode.string },
      simX := 1, simY := 2 }
  else if CMD_SCROLL_MARQUEE.isPrefixOf command ∧ command.getLast? = some 13 then
    let text := decodeIgnore ((command.drop 3).dropLast)
    { sim := { ((core.sim).setScrollText text) with
                 line1 := (ljust20 text).take 20, currentMode := DisplayMode.scroll },
      simX := 1, simY := 1 }
  else if CMD_WINDOW_SET.isPrefixOf command ∧ command.length = 6 then
    let op := command.getD 2 0
    let s := command.getD 3 0 + 1
    let e := command.getD 4 0 + 1
    let line := command.getD 5 0
    if op ≠ 0 then { core with sim := core.sim.setWindow line s e }
    else { core with sim := core.sim.clearWindowState }
  else if CMD_CURSOR_POSITION.isPrefixOf command ∧ command.length = 4 then
    { core with simX := command.getD 2 0, simY := command.getD 3 0 }
  else if command = CMD_CURSOR_HOME then
    { core with simX := 1, simY := 1 }
  else if command = CMD_CURSOR_LEFT ∧ 1 < core.simX then
    { core with simX := core.simX - 1 }
  else if command = CMD_CURSOR_RIGHT ∧ core.simX < 20 then
    { core with simX := core.simX + 1 }
  else if command = CMD_CURSOR_UP ∧ 1 < core.simY then
    { core with simY := core.simY - 1 }
  else if command = CMD_CURSOR_DOWN ∧ core.simY < 2 then
    { core with simY := core.simY + 1 }
  else if CMD_BRIGHTNESS.isPrefixOf command ∧ command.length = 3 then
    { core with sim := core.sim.setBrightnessLevel (command.getD 2 0) }
  else if command = CMD_DISPLAY_ON then
    { core with sim := core.sim.setDisplayOn true }
  else if command = CMD_DISPLAY_OFF then
    { core with sim := core.sim.setDisplayOn false }
  else if command = CMD_CURSOR_ON then
    { core with sim := core.sim.setCursorVisible true }
  else if command = CMD_CURSOR_OFF then
    { core with sim := core.sim.setCursorVisible false }
  else if command = CMD_OVERWRITE_MODE then
    { core with sim := core.sim.setMode DisplayMode.normal }
  else if command = CMD_HORIZONTAL_SCROLL then
    { core with sim := core.sim.setMode DisplayMode.scroll }
  else if command = CMD_VERTICAL_SCROLL then
    { core with sim := core.sim.setMode DisplayMode.scroll }
  else if command.all (fun b => 32 ≤ b ∧ b ≤ 126) then
    (decodeStrict command).foldl applyPrintableChar core
  else core

/-- Controller construction flags that matter to the claims
(`auto_clear_mode_transitions`, `warn_on_mode_transitions`). -/
structure CDConfig where
  autoClear : Bool
  warnOnTransitions : Bool
deriving DecidableEq, Repr

/-- Controller state (`CD5220`): tracked mode and active window, the simulator
core, the byte commands successfully written so far (`trace`), and the
pending transport-write outcomes (`hw`): each `_send_command` consumes one
entry; `false` makes the serial write raise; an exhausted list always
succeeds (covers simulator-only operation and fault-free transports). -/
structure Ctrl where
  currentMode : DisplayMode
  activeWindow : Option (Nat × Nat × Nat)
  simState : SimCore
  trace : List (List Nat)
  hw : List Bool
deriving DecidableEq, Repr

/-- Sequencing with early exit: Python statements after a raising call do not
run, and mutations already performed persist. -/
def opBind (r : Ctrl × Option CDError) (f : Ctrl → Ctrl × Option CDError) :
    Ctrl × Option CDError :=
  match r with
  | (c, none) => f c
  | (c, some e) => (c, some e)

/-- Source `CD5220._send_command`: the serial write happens first (and may raise
`TransportError`, leaving the simulator untouched); on success the command
is replayed into the simulator. -/
def sendCommand (c : Ctrl) (command : List Nat) : Ctrl × Option CDError :=
  match c.hw with
  | [] =>
      ({ c with simState := parseAndApplyCommand c.simState command,
                trace := c.trace ++ [command] }, none)
  | ok :: rest =>
      if ok then
        ({ c with simState := parseAndApplyCommand c.simState command,
                  trace := c.trace ++ [command], hw := rest }, none)
      else ({ c with hw := rest }, some CDError.transport)

/-- Source `CD5220._sync_simulator_mode`. -/
def syncSimulatorMode (c : Ctrl) : Ctrl :=
  let sim := c.simState.sim.setMode c.currentMode
  match c.activeWindow with
  | none => { c with simState := { c.simState with sim := sim.clearWindowState } }
  | some (l, s, e) => { c with simState := { c.simState with sim := sim.setWindow l s e } }

/-- Source `CD5220.clear_display`. -/
def clearDisplay (c : Ctrl) : Ctrl × Option CDError :=
  opBind (sendCommand c CMD_CLEAR) fun c1 =>
    (syncSimulatorMode { c1 with currentMode := DisplayMode.normal, activeWindow := none },
     none)

/-- Source `CD5220.cancel_current_line`. -/
def cancelCurrentLine (c : Ctrl) : Ctrl × Option CDError :=
  opBind (sendCommand c CMD_CANCEL) fun c1 =>
    (syncSimulatorMode { c1 with currentMode := DisplayMode.normal }, none)

/-- Source `CD5220._ensure_normal_mode` (no caller passes `force_clear=True`). -/
def ensureNormalMode (cfg : CDConfig) (c : Ctrl) : Ctrl × Option CDError :=
  if c.currentMode = DisplayMode.normal then (c, none)
  else if cfg.autoClear then clearDisplay c
  else (c, some CDError.requiresNormal)

/-- Source `CD5220.set_horizontal_scroll_mode`. -/
def setHorizontalScrollMode (cfg : CDConfig) (c : Ctrl) : Ctrl × Option CDError :=
  opBind (ensureNormalMode cfg c) fun c1 => sendCommand c1 CMD_HORIZONTAL_SCROLL

/-- Source `CD5220.set_brightness`: validation precedes both the mode check and
any I/O. -/
def setBrightness (cfg : CDConfig) (c : Ctrl) (level : Int) : Ctrl × Option CDError :=
  if ¬(1 ≤ level ∧ level ≤ 4) then (c, some CDError.invalidBrightness)
  else opBind (ensureNormalMode cfg c) fun c1 =>
    sendCommand c1 (CMD_BRIGHTNESS ++ [level.toNat])

/-- Source `CD5220._send_cursor_position_raw`: no validation, no mode check. -/
def sendCursorPositionRaw (c : Ctrl) (col row : Nat) : Ctrl × Option CDError :=
  sendCommand c (CMD_CURSOR_POSITION ++ [col, row])

/-- Source `CD5220.set_cursor_position`. -/
def setCursorPosition (cfg : CDConfig) (c : Ctrl) (col row : Int) :
    Ctrl × Option CDError :=
  if ¬(row = 1 ∨ row = 2) then (c, some CDError.rowRange)
  else if ¬(1 ≤ col ∧ col ≤ 20) then (c, some CDError.colRange)
  else opBind (ensureNormalMode cfg c) fun c1 =>
    sendCursorPositionRaw c1 col.toNat row.toNat

/-- Source `CD5220.write_at_cursor` (via `_write_text_raw`). -/
def writeAtCursor (cfg : CDConfig) (c : Ctrl) (text : List Char) :
    Ctrl × Option CDError :=
  opBind (ensureNormalMode cfg c) fun c1 => sendCommand c1 (encodeAscii text)

/-- Source `CD5220.write_positioned`. -/
def writePositioned (cfg : CDConfig) (c : Ctrl) (text : List Char) (col row : Int) :
    Ctrl × Option CDError :=
  opBind (setCursorPosition cfg c col row) fun c1 => writeAtCursor cfg c1 text

/-- Source `CD5220.write_upper_line`: truncate to 20, pad, send `ESC Q A`, enter
STRING mode. -/
def writeUpperLine (c : Ctrl) (text : List Char) : Ctrl × Option CDError :=
  let t := text.take 20
  let padded := t ++ List.replicate (20 - t.length) ' '
  opBind (sendCommand c (CMD_STRING_UPPER ++ encodeAscii padded ++ [13])) fun c1 =>
    (syncSimulatorMode { c1 with currentMode := DisplayMode.string }, none)

/-- Source `CD5220.write_lower_line`. -/
def writeLowerLine (c : Ctrl) (text : List Char) : Ctrl × Option CDError :=
  let t := text.take 20
  let padded := t ++ List.replicate (20 - t.length) ' '
  opBind (sendCommand c (CMD_STRING_LOWER ++ encodeAscii padded ++ [13])) fun c1 =>
    (syncSimulatorMode { c1 with currentMode := DisplayMode.string }, none)

/-- Source `CD5220.scroll_marquee`. -/
def scrollMarquee (c : Ctrl) (text : List Char) : Ctrl × Option CDError :=
  opBind (sendCommand c (CMD_SCROLL_MARQUEE ++ encodeAscii text ++ [13])) fun c1 =>
    (syncSimulatorMode { c1 with currentMode := DisplayMode.scroll }, none)

/-- Source `CD5220.set_window`: validate, ensure normal mode, send the 0-based
window bytes, record the 1-based window, sync. -/
def setWindow (cfg : CDConfig) (c : Ctrl) (line startCol endCol : Int) :
    Ctrl × Option CDError :=
  if ¬(line = 1 ∨ line = 2) then (c, some CDError.lineRange)
  else if ¬(1 ≤ startCol ∧ startCol ≤ endCol ∧ endCol ≤ 20) then
    (c, some CDError.windowRange)
  else opBind (ensureNormalMode cfg c) fun c1 =>
    opBind (sendCommand c1
        (CMD_WINDOW_SET ++ [1, (startCol - 1).toNat, (endCol - 1).toNat, line.toNat]))
      fun c2 =>
        (syncSimulatorMode
          { c2 with activeWindow := some (line.toNat, startCol.toNat, endCol.toNat) },
         none)

/-- Source `CD5220.clear_window`. -/
def clearWindow (cfg : CDConfig) (c : Ctrl) (line : Int) : Ctrl × Option CDError :=
  if ¬(line = 1 ∨ line = 2) then (c, some CDError.lineRange)
  else opBind (ensureNormalMode cfg c) fun c1 =>
    opBind (sendCommand c1 (CMD_WINDOW_SET ++ [0, 0, 0, line.toNat])) fun c2 =>
      (syncSimulatorMode { c2 with activeWindow := none }, none)

/-- Source `CD5220.enter_viewport_mode`: the no-window check precedes the mode
check (and therefore precedes any auto-clear). -/
def enterViewportMode (cfg : CDConfig) (c : Ctrl) : Ctrl × Option CDError :=
  match c.activeWindow with
  | none => (c, some CDError.noWindows)
  | some _ =>
    opBind (ensureNormalMode cfg c) fun c1 =>
      opBind (setHorizontalScrollMode cfg c1) fun c2 =>
        (syncSimulatorMode { c2 with currentMode := DisplayMode.viewport }, none)

/-- The character-paced loop of `write_viewport`: one raw text command per
character. -/
def writeViewportChars (c : Ctrl) : List Char → Ctrl × Option CDError
  | [] => (c, none)
  | ch :: rest =>
      opBind (sendCommand c (encodeAscii [ch])) fun c1 => writeViewportChars c1 rest

/-- Source `CD5220.write_viewport`: mode and window-line gates, then cursor to the
window start and either one burst (`char_delay=None`, `paced = false`) or
character-at-a-time (`paced = true`). The source positions the cursor at
`(start_col, line)`; the gate has established `line` equals the window's
line. -/
def writeViewport (c : Ctrl) (line : Int) (text : List Char) (paced : Bool) :
    Ctrl × Option CDError :=
  if c.currentMode ≠ DisplayMode.viewport then (c, some CDError.mustBeViewport)
  else
    match c.activeWindow with
    | none => (c, some CDError.noWindowForLine)
    | some (wl, startCol, _) =>
        if (wl : Int) ≠ line then (c, some CDError.noWindowForLine)
        else if paced = false then
          opBind (sendCursorPositionRaw c startCol wl) fun c1 =>
            sendCommand c1 (encodeAscii text)
        else
          opBind (sendCursorPositionRaw c startCol wl) fun c1 =>
            writeViewportChars c1 text

/-- The public controller operations modelled here, for claims quantifying
over "every operation". -/
inductive Op where
  | clearDisplay
  | cancelCurrentLine
  | setHorizontalScrollMode
  | setBrightness (level : Int)
  | setCursorPosition (col row : Int)
  | writeAtCursor (text : List Char)
  | writePositioned (text : List Char) (col row : Int)
  | writeUpperLine (text : List Char)
  | writeLowerLine (text : List Char)
  | scrollMarquee (text : List Char)
  | setWindow (line startCol endCol : Int)
  | clearWindow (line : Int)
  | enterViewportMode
  | writeViewport (line : Int) (text : List Char) (paced : Bool)
deriving DecidableEq, Repr

def runOp (cfg : CDConfig) (op : Op) (c : Ctrl) : Ctrl × Option CDError :=
  match op with
  | Op.clearDisplay => clearDisplay c
  | Op.cancelCurrentLine => cancelCurrentLine c
  | Op.setHorizontalScrollMode => setHorizontalScrollMode cfg c
  | Op.setBrightness level => setBrightness cfg c level
  | Op.setCursorPosition col row => setCursorPosition cfg c col row
  | Op.writeAtCursor text => writeAtCursor cfg c text
  | Op.writePositioned text col row => writePositioned cfg c text col row
  | Op.writeUpperLine text => writeUpperLine c text
  | Op.writeLowerLine text => writeLowerLine c text
  | Op.scrollMarquee text => scrollMarquee c text
  | Op.setWindow line s e => setWindow cfg c line s e
  | Op.clearWindow line => clearWindow cfg c line
  | Op.enterViewportMode => enterViewportMode cfg c
  | Op.writeViewport line text paced => writeViewport c line text paced

/-- The source's constructor defaults. -/
def defaultConfig : CDConfig := { autoClear := true, warnOnTransitions := true }

/-- Simulator-only construction (`CD5220.__init__` with no serial port):
the INITIALIZE and CLEAR commands are replayed directly into the simulator
without going through `_send_command`. -/
def startCtrl : Ctrl :=
  { currentMode := DisplayMode.normal, activeWindow := none,
    simState := parseAndApplyCommand
      (parseAndApplyCommand
        { sim := DisplaySimulator.start, simX := 1, simY := 1 } CMD_INIT) CMD_CLEAR,
    trace := [], hw := [] }

/-- Source `DiffAnimator` state: desired frame (`buffer`) and last-rendered baseline
(`state`), each as two 20-character rows. -/
structure DiffAnimator where
  buf1 : List Char
  buf2 : List Char
  st1 : List Char
  st2 : List Char
deriving DecidableEq, Repr

/-- One row of `DiffAnimator.render_frame`: scan columns left to right; a
differing cell sends `write_positioned(ch, x+1, y+1)` through the display
and updates the baseline cell; an exception aborts the scan with earlier
baseline updates kept. Rows are length-20 by construction; mismatched
lengths (an `IndexError` in Python) stop the scan. -/
def renderRowAux (cfg : CDConfig) (y : Nat) :
    List Char → List Char → Nat → Ctrl → Ctrl × List Char × Option CDError
  | [], ss, _, c => (c, ss, none)
  | _ :: _, [], _, c => (c, [], none)
  | b :: bs, s :: ss, x, c =>
      if b = s then
        let r := renderRowAux cfg y bs ss (x + 1) c
        (r.1, s :: r.2.1, r.2.2)
      else
        match writePositioned cfg c [b] ((x : Int) + 1) ((y : Int) + 1) with
        | (c1, none) =>
            let r := renderRowAux cfg y bs ss (x + 1) c1
            (r.1, b :: r.2.1, r.2.2)
        | (c1, some e) => (c1, s :: ss, some e)

/-- Source `DiffAnimator.render_frame` (console rendering and the optional mirror
simulator omitted). -/
def renderFrame (cfg : CDConfig) (a : DiffAnimator) (c : Ctrl) :
    DiffAnimator × Ctrl × Option CDError :=
  match renderRowAux cfg 0 a.buf1 a.st1 0 c with
  | (c1, st1', some e) => ({ a with st1 := st1' }, c1, some e)
  | (c1, st1', none) =>
      match renderRowAux cfg 1 a.buf2 a.st2 0 c1 with
      | (c2, st2', e) => ({ a with st1 := st1', st2 := st2' }, c2, e)

/-- The effect of `lines = [line1.ljust(20), line2.ljust(20)]` followed by
copying cells `x in range(20)`: pad to 20 and keep the first 20. -/
def fit20 (row : List Char) : List Char :=
  row.take 20 ++ List.replicate (20 - row.length) ' '

/-- Source `DiffAnimator.write_frame`. -/
def writeFrame (cfg : CDConfig) (a : DiffAnimator) (c : Ctrl)
    (line1 line2 : List Char) : DiffAnimator × Ctrl × Option CDError :=
  renderFrame cfg { a with buf1 := fit20 line1, buf2 := fit20 line2 } c

/-- Source `DiffAnimator.__init__`: blank buffer and baseline. -/
def startAnimator : DiffAnimator :=
  { buf1 := blankRow, buf2 := blankRow, st1 := blankRow, st2 := blankRow }

-- Observation helpers for counting wire commands in a trace.

/-- The bytes of one cursor-position command. -/
def posCmdBytes (col row : Nat) : List Nat := CMD_CURSOR_POSITION ++ [col, row]

/-- Recognize a cursor-position command (`1B 6C col row`). -/
def isPosCmd (cmd : List Nat) : Bool :=
  cmd.length = 4 && CMD_CURSOR_POSITION.isPrefixOf cmd

/-- Number of cursor-position commands in a trace that target `row`. -/
def countPosRow (tr : List (List Nat)) (row : Nat) : Nat :=
  (tr.filter (fun cmd => isPosCmd cmd && cmd.getD 3 0 == row)).length

/-- The non-cursor-position (raw text) commands of a trace. -/
def textCmds (tr : List (List Nat)) : List (List Nat) :=
  tr.filter (fun cmd => !isPosCmd cmd)

/-- The commands `render_frame` emits for one row scan: a cursor-position
plus a one-character raw text command per differing cell. -/
def emitRow (y : Nat) : List Char → List Char → Nat → List (List Nat)
  | [], _, _ => []
  | _ :: _, [], _ => []
  | b :: bs, s :: ss, x =>
      (if b = s then [] else [posCmdBytes (x + 1) (y + 1), encodeAscii [b]]) ++
        emitRow y bs ss (x + 1)

/-- Indices (0-based) at which two rows differ, scanning from index `x`. -/
def diffColsAux : List Char → List Char → Nat → List Nat
  | b :: bs, s :: ss, x => (if b = s then [] else [x]) ++ diffColsAux bs ss (x + 1)
  | _, _, _ => []

/-- Indices (0-based) at which two rows differ. -/
def diffCols (bs ss : List Char) : List Nat := diffColsAux bs ss 0

-- ===================================================================
-- Helper lemmas
-- ===================================================================

theorem sendCommand_nil (c : Ctrl) (cmd : List Nat) (h : c.hw = []) :
    sendCommand c cmd =
      ({ c with simState := parseAndApplyCommand c.simState cmd,
                trace := c.trace ++ [cmd] }, none) := by
  simp [sendCommand, h]

theorem parseAndApplyCommand_clear (core : SimCore) :
    parseAndApplyCommand core CMD_CLEAR =
      { sim := { core.sim with
                 line1 := blankRow,
                 line2 := blankRow,
                 viewportBuffer := [],
                 currentMode := DisplayMode.normal,
                 activeWindow := none },
        simX := 1, simY := 1 } := by
  simp [parseAndApplyCommand, DisplaySimulator.clear, DisplaySimulator.setMode,
    DisplaySimulator.clearWindowState]

theorem parseAndApplyCommand_brightness (core : SimCore) (l : Nat) :
    parseAndApplyCommand core (CMD_BRIGHTNESS ++ [l]) =
      { core with sim := core.sim.setBrightnessLevel l } := by
  simp [parseAndApplyCommand, CMD_BRIGHTNESS, CMD_CLEAR, CMD_INIT, CMD_CANCEL,
    CMD_STRING_UPPER, CMD_STRING_LOWER, CMD_SCROLL_MARQUEE, CMD_WINDOW_SET,
    CMD_CURSOR_POSITION, CMD_CURSOR_HOME, CMD_CURSOR_LEFT, CMD_CURSOR_RIGHT,
    CMD_CURSOR_UP, CMD_CURSOR_DOWN, List.isPrefixOf]

theorem parseAndApplyCommand_cancel_row1 (core : SimCore) (h : core.simY = 1) :
    parseAndApplyCommand core CMD_CANCEL =
      { core with sim := { core.sim with
                           line1 := blankRow,
                           currentMode := DisplayMode.normal,
                           viewportBuffer := [] },
                  simX := 1 } := by
  simp [parseAndApplyCommand, CMD_CANCEL, CMD_CLEAR, CMD_INIT, h,
    DisplaySimulator.setMode]

theorem parseAndApplyCommand_cancel_row2 (core : SimCore) (h : core.simY = 2) :
    parseAndApplyCommand core CMD_CANCEL =
      { core with sim := { core.sim with
                           line2 := blankRow,
                           currentMode := DisplayMode.normal,
                           viewportBuffer := [] },
                  simX := 1 } := by
  simp [parseAndApplyCommand, CMD_CANCEL, CMD_CLEAR, CMD_INIT, h,
    DisplaySimulator.setMode]

theorem parseAndApplyCommand_cursorPos (core : SimCore) (col row : Nat) :
    parseAndApplyCommand core (CMD_CURSOR_POSITION ++ [col, row]) =
      { core with simX := col, simY := row } := by
  simp [parseAndApplyCommand, CMD_BRIGHTNESS, CMD_CLEAR, CMD_INIT, CMD_CANCEL,
    CMD_STRING_UPPER, CMD_STRING_LOWER, CMD_SCROLL_MARQUEE, CMD_WINDOW_SET,
    CMD_CURSOR_POSITION, CMD_CURSOR_HOME, CMD_CURSOR_LEFT, CMD_CURSOR_RIGHT,
    CMD_CURSOR_UP, CMD_CURSOR_DOWN, List.isPrefixOf]

theorem parseAndApplyCommand_horizontal (core : SimCore) :
    parseAndApplyCommand core CMD_HORIZONTAL_SCROLL =
      { core with sim := core.sim.setMode DisplayMode.scroll } := by
  simp [parseAndApplyCommand, CMD_BRIGHTNESS, CMD_CLEAR, CMD_INIT, CMD_CANCEL,
    CMD_STRING_UPPER, CMD_STRING_LOWER, CMD_SCROLL_MARQUEE, CMD_WINDOW_SET,
    CMD_CURSOR_POSITION, CMD_CURSOR_HOME, CMD_CURSOR_LEFT, CMD_CURSOR_RIGHT,
    CMD_CURSOR_UP, CMD_CURSOR_DOWN, CMD_DISPLAY_ON, CMD_DISPLAY_OFF,
    CMD_CURSOR_ON, CMD_CURSOR_OFF, CMD_OVERWRITE_MODE, CMD_HORIZONTAL_SCROLL,
    CMD_VERTICAL_SCROLL, List.isPrefixOf]

theorem ensureNormalMode_ok (cfg : CDConfig) (c : Ctrl) (hhw : c.hw = [])
    (hok : c.currentMode = DisplayMode.normal ∨ cfg.autoClear = true) :
    (ensureNormalMode cfg c).2 = none ∧
    (ensureNormalMode cfg c).1.hw = [] ∧
    (ensureNormalMode cfg c).1.currentMode = DisplayMode.normal ∧
    (ensureNormalMode cfg c).1.simState.sim.brightness = c.simState.sim.brightness := by
  by_cases hm : c.currentMode = DisplayMode.normal
  · simp [ensureNormalMode, hm, hhw]
  · rcases hok with hok | hok
    · exact absurd hok hm
    · simp [ensureNormalMode, hm, hok, clearDisplay, sendCommand_nil _ _ hhw, opBind,
        parseAndApplyCommand_clear, syncSimulatorMode, DisplaySimulator.setMode,
        DisplaySimulator.clearWindowState, hhw]

theorem sendCommand_ffail (c : Ctrl) (cmd : List Nat) (h : c.hw = [false]) :
    sendCommand c cmd = ({ c with hw := [] }, some CDError.transport) := by
  simp [sendCommand, h]

theorem clearDisplay_ffail (c : Ctrl) (h : c.hw = [false]) :
    clearDisplay c = ({ c with hw := [] }, some CDError.transport) := by
  simp [clearDisplay, opBind, sendCommand_ffail _ _ h]

theorem ensureNormalMode_ffail (cfg : CDConfig) (c : Ctrl) (h : c.hw = [false]) :
    ensureNormalMode cfg c = (c, none) ∨
    ensureNormalMode cfg c = ({ c with hw := [] }, some CDError.transport) ∨
    ensureNormalMode cfg c = (c, some CDError.requiresNormal) := by
  by_cases hm : c.currentMode = DisplayMode.normal
  · left; simp [ensureNormalMode, hm]
  · by_cases ha : cfg.autoClear = true
    · right; left; simp [ensureNormalMode, hm, ha, clearDisplay_ffail _ h]
    · right; right
      simp [ensureNormalMode, hm, Bool.not_eq_true _ ▸ ha]

-- ===================================================================
-- Claim theorems
-- ===================================================================

/-- Claim C9 (confirmed): whenever no window has been configured
(`ActiveWindow = none`), `enter_viewport_mode` raises the StateError
"No windows configured", performs no I/O, and leaves the whole controller
state (in particular the mode) unchanged. -/
theorem c9_enterViewport_no_window (cfg : CDConfig) (c : Ctrl)
    (h : c.activeWindow = none) :
    enterViewportMode cfg c = (c, some CDError.noWindows) := by
  simp [enterViewportMode, h]

/-- Claim C9 witness: a fresh simulator-only controller has no window, and
`enter_viewport_mode` on it fails statefully unchanged. -/
theorem c9_enterViewport_no_window_witness :
    startCtrl.activeWindow = none ∧
      enterViewportMode defaultConfig startCtrl = (startCtrl, some CDError.noWindows) :=
  ⟨rfl, c9_enterViewport_no_window defaultConfig startCtrl rfl⟩

/-- Claim C3 (code bug): the sequence `set_window(1,4,10)`,
`write_upper_line("X")`, `enter_viewport_mode()` (with the default
auto-clear configuration) succeeds and leaves `Mode = VIEWPORT` with
`ActiveWindow = None`: `enter_viewport_mode` checks for a window before its
auto-clear wipes the window, violating the invariant that Viewport mode
implies a present window and leaving a state in which every `write_viewport`
fails. -/
theorem c3_viewport_mode_with_no_window :
    (enterViewportMode defaultConfig
        (writeUpperLine (setWindow defaultConfig startCtrl 1 4 10).1 ['X']).1).2 = none ∧
    (enterViewportMode defaultConfig
        (writeUpperLine (setWindow defaultConfig startCtrl 1 4 10).1 ['X']).1).1.currentMode
      = DisplayMode.viewport ∧
    (enterViewportMode defaultConfig
        (writeUpperLine (setWindow defaultConfig startCtrl 1 4 10).1 ['X']).1).1.activeWindow
      = none := by
  decide

/-- Claim C8 (confirmed): for a controller whose transport does not fault
and which is in Normal mode or has auto-clear enabled, every integer
brightness level in 1..4 succeeds and the simulator then reports exactly
that level; every level outside [1,4] raises the ValidationError
"Invalid brightness level" with the controller completely untouched: no
bytes reach the transport (the trace is unchanged) and nothing is replayed
into the simulator. -/
theorem c8_setBrightness_validated (cfg : CDConfig) (c : Ctrl) (level : Int)
    (hhw : c.hw = [])
    (hok : c.currentMode = DisplayMode.normal ∨ cfg.autoClear = true) :
    (1 ≤ level ∧ level ≤ 4 →
      (setBrightness cfg c level).2 = none ∧
      (setBrightness cfg c level).1.simState.sim.brightness = level.toNat) ∧
    (¬(1 ≤ level ∧ level ≤ 4) →
      setBrightness cfg c level = (c, some CDError.invalidBrightness)) := by
  constructor
  · intro hlevel
    obtain ⟨he, hw1, _, _⟩ := ensureNormalMode_ok cfg c hhw hok
    rcases hr : ensureNormalMode cfg c with ⟨c1, e1⟩
    rw [hr] at he hw1
    simp only at he hw1
    subst he
    simp [setBrightness, hlevel.1, hlevel.2, hr, opBind,
      sendCommand_nil _ _ hw1, parseAndApplyCommand_brightness,
      DisplaySimulator.setBrightnessLevel]
  · intro hlevel
    simp [setBrightness, hlevel]

/-- Claim C8 witness: at the fresh controller, level 3 succeeds and the
simulator reports 3; level 7 fails validation with the state unchanged. -/
theorem c8_setBrightness_validated_witness :
    ((setBrightness defaultConfig startCtrl 3).2 = none ∧
      (setBrightness defaultConfig startCtrl 3).1.simState.sim.brightness
        = (3 : Int).toNat) ∧
    setBrightness defaultConfig startCtrl 7 = (startCtrl, some CDError.invalidBrightness) :=
  ⟨(c8_setBrightness_validated defaultConfig startCtrl 3 rfl (Or.inl rfl)).1
      (by decide),
   (c8_setBrightness_validated defaultConfig startCtrl 7 rfl (Or.inl rfl)).2
      (by decide)⟩

/-- Claim C10 (confirmed): every successful `set_window(line, start, end)`
and every successful `clear_window(line)` leaves the simulator's viewport
accumulation buffer empty, so tail-truncation in a newly configured window
never shows characters accumulated under a previously configured window. -/
theorem c10_window_calls_reset_viewport_buffer (cfg : CDConfig) (c : Ctrl)
    (line startCol endCol : Int) (hhw : c.hw = [])
    (hline : line = 1 ∨ line = 2)
    (hrange : 1 ≤ startCol ∧ startCol ≤ endCol ∧ endCol ≤ 20)
    (hok : c.currentMode = DisplayMode.normal ∨ cfg.autoClear = true) :
    ((setWindow cfg c line startCol endCol).2 = none ∧
      (setWindow cfg c line startCol endCol).1.simState.sim.viewportBuffer = []) ∧
    ((clearWindow cfg c line).2 = none ∧
      (clearWindow cfg c line).1.simState.sim.viewportBuffer = []) := by
  obtain ⟨he, hw1, _, _⟩ := ensureNormalMode_ok cfg c hhw hok
  rcases hr : ensureNormalMode cfg c with ⟨c1, e1⟩
  rw [hr] at he hw1
  simp only at he hw1
  subst he
  constructor
  · simp [setWindow, hline, hrange.1, hrange.2.1, hrange.2.2, hr, opBind,
      sendCommand_nil _ _ hw1, syncSimulatorMode, DisplaySimulator.setWindow]
  · simp [clearWindow, hline, hr, opBind, sendCommand_nil _ _ hw1,
      syncSimulatorMode, DisplaySimulator.clearWindowState]

/-- Claim C10 witness: at the fresh controller, `set_window(2,3,8)` and
`clear_window(2)` both succeed and leave the simulator buffer empty. -/
theorem c10_window_calls_reset_viewport_buffer_witness :
    ((setWindow defaultConfig startCtrl 2 3 8).2 = none ∧
      (setWindow defaultConfig startCtrl 2 3 8).1.simState.sim.viewportBuffer = []) ∧
    ((clearWindow defaultConfig startCtrl 2).2 = none ∧
      (clearWindow defaultConfig startCtrl 2).1.simState.sim.viewportBuffer = []) :=
  c10_window_calls_reset_viewport_buffer defaultConfig startCtrl 2 3 8
    rfl (Or.inr rfl) (by decide) (Or.inl rfl)

/-- Claim C4 counterexample: `cancel_current_line` does NOT leave the visible
grid unchanged. After `write_upper_line("HELLO")` the upper row holds
"HELLO" and the cursor sits on row 1; `cancel_current_line` then succeeds
but blanks the upper row. -/
theorem c4_cancel_changes_grid :
    (cancelCurrentLine (writeUpperLine startCtrl ['H','E','L','L','O']).1).2 = none ∧
    (writeUpperLine startCtrl ['H','E','L','L','O']).1.simState.sim.line1 ≠
      (cancelCurrentLine
        (writeUpperLine startCtrl ['H','E','L','L','O']).1).1.simState.sim.line1 := by
  decide

/-- Claim C4 (corrected): `cancel_current_line` is legal in every mode,
always succeeds (on a fault-free transport), sets Mode to Normal and
preserves ActiveWindow; but instead of leaving the whole grid intact, the
simulator blanks the row under the cursor (the CAN command cancels the
current line) while the other row is preserved. -/
theorem c4_cancel_spec (c : Ctrl) (hhw : c.hw = []) :
    (cancelCurrentLine c).2 = none ∧
    (cancelCurrentLine c).1.currentMode = DisplayMode.normal ∧
    (cancelCurrentLine c).1.activeWindow = c.activeWindow ∧
    (c.simState.simY = 1 →
      (cancelCurrentLine c).1.simState.sim.line1 = blankRow ∧
      (cancelCurrentLine c).1.simState.sim.line2 = c.simState.sim.line2) ∧
    (c.simState.simY = 2 →
      (cancelCurrentLine c).1.simState.sim.line2 = blankRow ∧
      (cancelCurrentLine c).1.simState.sim.line1 = c.simState.sim.line1) := by
  refine ⟨?_, ?_, ?_, ?_, ?_⟩
  · rcases hW : c.activeWindow with _ | ⟨l, s, e⟩ <;>
      simp [cancelCurrentLine, opBind, sendCommand_nil _ _ hhw, syncSimulatorMode, hW]
  · rcases hW : c.activeWindow with _ | ⟨l, s, e⟩ <;>
      simp [cancelCurrentLine, opBind, sendCommand_nil _ _ hhw, syncSimulatorMode, hW]
  · rcases hW : c.activeWindow with _ | ⟨l, s, e⟩ <;>
      simp [cancelCurrentLine, opBind, sendCommand_nil _ _ hhw, syncSimulatorMode, hW]
  · intro hy
    rcases hW : c.activeWindow with _ | ⟨l, s, e⟩ <;>
      simp [cancelCurrentLine, opBind, sendCommand_nil _ _ hhw, syncSimulatorMode, hW,
        parseAndApplyCommand_cancel_row1 _ hy, DisplaySimulator.clearWindowState,
        DisplaySimulator.setWindow, DisplaySimulator.setMode]
  · intro hy
    rcases hW : c.activeWindow with _ | ⟨l, s, e⟩ <;>
      simp [cancelCurrentLine, opBind, sendCommand_nil _ _ hhw, syncSimulatorMode, hW,
        parseAndApplyCommand_cancel_row2 _ hy, DisplaySimulator.clearWindowState,
        DisplaySimulator.setWindow, DisplaySimulator.setMode]

/-- Claim C4 witness: a concrete instance of the corrected cancel behavior
from String mode with a configured window line 2 (the cursor is on row 1,
which is blanked; row 2 and the window survive). -/
theorem c4_cancel_spec_witness :
    ((cancelCurrentLine (writeUpperLine
        (setWindow defaultConfig startCtrl 2 3 8).1 ['H','I']).1).2 = none ∧
     (cancelCurrentLine (writeUpperLine
        (setWindow defaultConfig startCtrl 2 3 8).1 ['H','I']).1).1.currentMode
        = DisplayMode.normal ∧
     (cancelCurrentLine (writeUpperLine
        (setWindow defaultConfig startCtrl 2 3 8).1 ['H','I']).1).1.activeWindow
        = (writeUpperLine
            (setWindow defaultConfig startCtrl 2 3 8).1 ['H','I']).1.activeWindow ∧
     ((writeUpperLine
        (setWindow defaultConfig startCtrl 2 3 8).1 ['H','I']).1.simState.simY = 1 →
      (cancelCurrentLine (writeUpperLine
        (setWindow defaultConfig startCtrl 2 3 8).1 ['H','I']).1).1.simState.sim.line1
        = blankRow ∧
      (cancelCurrentLine (writeUpperLine
        (setWindow defaultConfig startCtrl 2 3 8).1 ['H','I']).1).1.simState.sim.line2
        = (writeUpperLine
            (setWindow defaultConfig startCtrl 2 3 8).1 ['H','I']).1.simState.sim.line2) ∧
     ((writeUpperLine
        (setWindow defaultConfig startCtrl 2 3 8).1 ['H','I']).1.simState.simY = 2 →
      (cancelCurrentLine (writeUpperLine
        (setWindow defaultConfig startCtrl 2 3 8).1 ['H','I']).1).1.simState.sim.line2
        = blankRow ∧
      (cancelCurrentLine (writeUpperLine
        (setWindow defaultConfig startCtrl 2 3 8).1 ['H','I']).1).1.simState.sim.line1
        = (writeUpperLine
            (setWindow defaultConfig startCtrl 2 3 8).1 ['H','I']).1.simState.sim.line1)) :=
  c4_cancel_spec (writeUpperLine (setWindow defaultConfig startCtrl 2 3 8).1
    ['H','I']).1 (by decide)

/-- Claim C7 counterexample: a transport failure does not always leave Mode
and ActiveWindow untouched. From String mode with auto-clear enabled,
`set_window(2,1,5)` first auto-clears (that write succeeds, setting
Mode to Normal) and then the window-set write fails: the call raises
`TransportError` yet the mode observed afterwards is Normal, not the String
mode it had before the call. -/
theorem c7_transport_failure_changes_mode :
    ({ (writeUpperLine startCtrl ['H','I']).1 with
       hw := [true, false] } : Ctrl).currentMode = DisplayMode.string ∧
    (setWindow defaultConfig
      { (writeUpperLine startCtrl ['H','I']).1 with hw := [true, false] } 2 1 5).2
      = some CDError.transport ∧
    (setWindow defaultConfig
      { (writeUpperLine startCtrl ['H','I']).1 with hw := [true, false] } 2 1 5).1.currentMode
      = DisplayMode.normal := by
  decide

/-- Claim C7 (corrected): state updates track successfully sent commands;
in particular, when the transport fails on the FIRST write an operation
attempts (so no earlier auto-clear write could land), every modelled public
operation raises and leaves both Mode and ActiveWindow exactly as they were
before the call. -/
theorem c7_first_write_failure_preserves_state (cfg : CDConfig) (op : Op) (c : Ctrl)
    (hhw : c.hw = [false]) :
    (runOp cfg op c).1.currentMode = c.currentMode ∧
    (runOp cfg op c).1.activeWindow = c.activeWindow := by
  have hsend := fun cmd => sendCommand_ffail c cmd hhw
  have hens := ensureNormalMode_ffail cfg c hhw
  cases op with
  | clearDisplay =>
      simp [runOp, clearDisplay, opBind, hsend]
  | cancelCurrentLine =>
      simp [runOp, cancelCurrentLine, opBind, hsend]
  | setHorizontalScrollMode =>
      rcases hens with h | h | h <;>
        simp [runOp, setHorizontalScrollMode, opBind, h, hsend]
  | setBrightness level =>
      by_cases hv : 1 ≤ level ∧ level ≤ 4
      · rcases hens with h | h | h <;>
          simp [runOp, setBrightness, hv, opBind, h, hsend]
      · simp [runOp, setBrightness, hv]
  | setCursorPosition col row =>
      by_cases hrow : row = 1 ∨ row = 2
      · by_cases hcol : 1 ≤ col ∧ col ≤ 20
        · rcases hens with h | h | h <;>
            simp [runOp, setCursorPosition, hrow, hcol, opBind, h,
              sendCursorPositionRaw, hsend]
        · simp [runOp, setCursorPosition, hrow, hcol]
      · simp [runOp, setCursorPosition, hrow]
  | writeAtCursor text =>
      rcases hens with h | h | h <;>
        simp [runOp, writeAtCursor, opBind, h, hsend]
  | writePositioned text col row =>
      by_cases hrow : row = 1 ∨ row = 2
      · by_cases hcol : 1 ≤ col ∧ col ≤ 20
        · rcases hens with h | h | h <;>
            simp [runOp, writePositioned, setCursorPosition, writeAtCursor,
              hrow, hcol, opBind, h, sendCursorPositionRaw, hsend]
        · simp [runOp, writePositioned, setCursorPosition, hrow, hcol, opBind]
      · simp [runOp, writePositioned, setCursorPosition, hrow, opBind]
  | writeUpperLine text =>
      simp [runOp, writeUpperLine, opBind, hsend]
  | writeLowerLine text =>
      simp [runOp, writeLowerLine, opBind, hsend]
  | scrollMarquee text =>
      simp [runOp, scrollMarquee, opBind, hsend]
  | setWindow line s e =>
      by_cases hline : line = 1 ∨ line = 2
      · by_cases hrange : 1 ≤ s ∧ s ≤ e ∧ e ≤ 20
        · rcases hens with h | h | h <;>
            simp [runOp, setWindow, hline, hrange, opBind, h, hsend]
        · simp [runOp, setWindow, hline, hrange]
      · simp [runOp, setWindow, hline]
  | clearWindow line =>
      by_cases hline : line = 1 ∨ line = 2
      · rcases hens with h | h | h <;>
          simp [runOp, clearWindow, hline, opBind, h, hsend]
      · simp [runOp, clearWindow, hline]
  | enterViewportMode =>
      rcases hW : c.activeWindow with _ | ⟨l, s, e⟩
      · simp [runOp, enterViewportMode, hW]
      · rcases hens with h | h | h <;>
          simp [runOp, enterViewportMode, hW, opBind, h,
            setHorizontalScrollMode, hsend]
  | writeViewport line text paced =>
      by_cases hm : c.currentMode = DisplayMode.viewport
      · rcases hW : c.activeWindow with _ | ⟨l, s, e⟩
        · simp [runOp, writeViewport, hm, hW]
        · by_cases hl : (l : Int) = line
          · cases paced <;>
              simp [runOp, writeViewport, hm, hW, hl, opBind,
                sendCursorPositionRaw, hsend]
          · simp [runOp, writeViewport, hm, hW, hl]
      · simp [runOp, writeViewport, hm]

theorem writePositioned_normal (cfg : CDConfig) (c : Ctrl) (text : List Char)
    (col row : Int) (hm : c.currentMode = DisplayMode.normal) (hhw : c.hw = [])
    (hrow : row = 1 ∨ row = 2) (hcol : 1 ≤ col ∧ col ≤ 20) :
    writePositioned cfg c text col row =
      ({ c with
         simState := parseAndApplyCommand
           (parseAndApplyCommand c.simState (posCmdBytes col.toNat row.toNat))
           (encodeAscii text),
         trace := c.trace ++ [posCmdBytes col.toNat row.toNat, encodeAscii text] },
       none) := by
  simp [writePositioned, setCursorPosition, hrow, hcol, ensureNormalMode, hm, opBind,
    sendCursorPositionRaw, writeAtCursor, sendCommand, hhw, posCmdBytes]

theorem emitRow_self (y : Nat) : ∀ (bs : List Char) (x : Nat), emitRow y bs bs x = [] := by
  intro bs
  induction bs with
  | nil => intro x; rfl
  | cons b bs' ih => intro x; simp [emitRow, ih]

theorem renderRowAux_spec (cfg : CDConfig) (y : Nat) (hy : y = 0 ∨ y = 1) :
    ∀ (bs ss : List Char) (x : Nat) (c : Ctrl),
      c.currentMode = DisplayMode.normal → c.hw = [] →
      bs.length = ss.length → x + bs.length ≤ 20 →
      (renderRowAux cfg y bs ss x c).2.2 = none ∧
      (renderRowAux cfg y bs ss x c).2.1 = bs ∧
      (renderRowAux cfg y bs ss x c).1.currentMode = DisplayMode.normal ∧
      (renderRowAux cfg y bs ss x c).1.hw = [] ∧
      (renderRowAux cfg y bs ss x c).1.activeWindow = c.activeWindow ∧
      (renderRowAux cfg y bs ss x c).1.trace = c.trace ++ emitRow y bs ss x := by
  intro bs
  induction bs with
  | nil =>
      intro ss x c hm hhw hlen hbound
      have hss : ss = [] := by
        cases ss with
        | nil => rfl
        | cons a t => simp at hlen
      subst hss
      simp [renderRowAux, emitRow, hm, hhw]
  | cons b bs' ih =>
      intro ss x c hm hhw hlen hbound
      cases ss with
      | nil => simp at hlen
      | cons s ss' =>
          by_cases hb : b = s
          · subst hb
            have hrec := ih ss' (x + 1) c hm hhw (by simpa using hlen) (by simp at hbound ⊢; omega)
            simp [renderRowAux, emitRow, hrec.1, hrec.2.1, hrec.2.2.1, hrec.2.2.2.1,
              hrec.2.2.2.2.1, hrec.2.2.2.2.2]
          · have hx20 : x + 1 ≤ 20 := by simp at hbound; omega
            have hwp := writePositioned_normal cfg c [b] ((x : Int) + 1) ((y : Int) + 1)
              hm hhw (by rcases hy with h | h <;> simp [h]) (by omega)
            have hxy : ((x : Int) + 1).toNat = x + 1 := by omega
            have hyy : ((y : Int) + 1).toNat = y + 1 := by omega
            rw [hxy, hyy] at hwp
            have hrec := ih ss' (x + 1)
              ({ c with
                 simState := parseAndApplyCommand
                   (parseAndApplyCommand c.simState (posCmdBytes (x + 1) (y + 1)))
                   (encodeAscii [b]),
                 trace := c.trace ++ [posCmdBytes (x + 1) (y + 1), encodeAscii [b]] })
              hm hhw (by simpa using hlen) (by simp at hbound ⊢; omega)
            simp only [renderRowAux, hb, if_neg, hwp]
            simp [hrec.1, hrec.2.1, hrec.2.2.1, hrec.2.2.2.1, hrec.2.2.2.2.1,
              hrec.2.2.2.2.2, emitRow, hb]

theorem fit20_length (row : List Char) : (fit20 row).length = 20 := by
  simp [fit20]
  omega

theorem writeFrame_spec (cfg : CDConfig) (a : DiffAnimator) (c : Ctrl)
    (l1 l2 : List Char) (hm : c.currentMode = DisplayMode.normal) (hhw : c.hw = [])
    (h1 : a.st1.length = 20) (h2 : a.st2.length = 20) :
    (writeFrame cfg a c l1 l2).2.2 = none ∧
    (writeFrame cfg a c l1 l2).1 =
      { buf1 := fit20 l1, buf2 := fit20 l2, st1 := fit20 l1, st2 := fit20 l2 } ∧
    (writeFrame cfg a c l1 l2).2.1.currentMode = DisplayMode.normal ∧
    (writeFrame cfg a c l1 l2).2.1.hw = [] ∧
    (writeFrame cfg a c l1 l2).2.1.trace =
      c.trace ++ emitRow 0 (fit20 l1) a.st1 0 ++ emitRow 1 (fit20 l2) a.st2 0 := by
  have hr1 := renderRowAux_spec cfg 0 (Or.inl rfl) (fit20 l1) a.st1 0 c hm hhw
    (by rw [fit20_length, h1]) (by rw [fit20_length])
  rcases hq1 : renderRowAux cfg 0 (fit20 l1) a.st1 0 c with ⟨c1, st1', e1⟩
  rw [hq1] at hr1
  simp only at hr1
  obtain ⟨he1, hst1, hm1, hw1, _, ht1⟩ := hr1
  subst he1
  have hr2 := renderRowAux_spec cfg 1 (Or.inr rfl) (fit20 l2) a.st2 0 c1 hm1 hw1
    (by rw [fit20_length, h2]) (by rw [fit20_length])
  rcases hq2 : renderRowAux cfg 1 (fit20 l2) a.st2 0 c1 with ⟨c2, st2', e2⟩
  rw [hq2] at hr2
  simp only at hr2
  obtain ⟨he2, hst2, hm2, hw2, _, ht2⟩ := hr2
  subst he2
  simp [writeFrame, renderFrame, hq1, hq2, hst1, hst2, hm2, hw2, ht2, ht1]

/-- Claim C5 (confirmed): `write_frame` is idempotent with respect to I/O.
For a display in Normal mode on a fault-free transport, writing any frame
and then writing the same frame again issues zero wire commands on the
second call: the transport trace after the second call equals the trace
after the first, and both calls succeed. -/
theorem c5_writeFrame_idempotent (cfg : CDConfig) (a : DiffAnimator) (c : Ctrl)
    (l1 l2 : List Char) (hm : c.currentMode = DisplayMode.normal)
    (hhw : c.hw = []) (h1 : a.st1.length = 20) (h2 : a.st2.length = 20) :
    (writeFrame cfg a c l1 l2).2.2 = none ∧
    (writeFrame cfg (writeFrame cfg a c l1 l2).1 (writeFrame cfg a c l1 l2).2.1
      l1 l2).2.2 = none ∧
    (writeFrame cfg (writeFrame cfg a c l1 l2).1 (writeFrame cfg a c l1 l2).2.1
      l1 l2).2.1.trace = (writeFrame cfg a c l1 l2).2.1.trace := by
  obtain ⟨he, ha, hm', hw', _⟩ := writeFrame_spec cfg a c l1 l2 hm hhw h1 h2
  obtain ⟨he2, _, _, _, ht2⟩ := writeFrame_spec cfg (writeFrame cfg a c l1 l2).1
    (writeFrame cfg a c l1 l2).2.1 l1 l2 hm' hw'
    (by rw [ha]; exact fit20_length l1) (by rw [ha]; exact fit20_length l2)
  refine ⟨he, he2, ?_⟩
  rw [ht2, ha]
  simp [emitRow_self]

/-- Claim C5 witness: writing the frame ("HELLO","WORLD") twice from a fresh
controller and animator issues no wire traffic on the second call. -/
theorem c5_writeFrame_idempotent_witness :
    (writeFrame defaultConfig startAnimator startCtrl
      "HELLO".toList "WORLD".toList).2.2 = none ∧
    (writeFrame defaultConfig
      (writeFrame defaultConfig startAnimator startCtrl "HELLO".toList "WORLD".toList).1
      (writeFrame defaultConfig startAnimator startCtrl "HELLO".toList "WORLD".toList).2.1
      "HELLO".toList "WORLD".toList).2.2 = none ∧
    (writeFrame defaultConfig
      (writeFrame defaultConfig startAnimator startCtrl "HELLO".toList "WORLD".toList).1
      (writeFrame defaultConfig startAnimator startCtrl "HELLO".toList "WORLD".toList).2.1
      "HELLO".toList "WORLD".toList).2.1.trace =
    (writeFrame defaultConfig startAnimator startCtrl
      "HELLO".toList "WORLD".toList).2.1.trace :=
  c5_writeFrame_idempotent defaultConfig startAnimator startCtrl
    "HELLO".toList "WORLD".toList rfl rfl (by decide) (by decide)

theorem isPosCmd_posCmdBytes (a b : Nat) : isPosCmd (posCmdBytes a b) = true := by
  simp [isPosCmd, posCmdBytes, CMD_CURSOR_POSITION, List.isPrefixOf]

theorem isPosCmd_encodeAscii_single (ch : Char) : isPosCmd (encodeAscii [ch]) = false := by
  by_cases h : ch.toNat ≤ 127 <;> simp [isPosCmd, encodeAscii, h]

theorem posCmdBytes_getD (a b : Nat) : (posCmdBytes a b).getD 3 0 = b := by
  simp [posCmdBytes, CMD_CURSOR_POSITION]

theorem countPosRow_pair (a y r : Nat) (ch : Char) (rest : List (List Nat)) :
    countPosRow (posCmdBytes a y :: encodeAscii [ch] :: rest) r =
      (if y = r then 1 else 0) + countPosRow rest r := by
  have hlen : (encodeAscii [ch]).length ≠ 4 := by
    by_cases hh : ch.toNat ≤ 127 <;> simp [encodeAscii, hh]
  by_cases h : y = r <;>
    simp [countPosRow, List.filter_cons, isPosCmd, List.isPrefixOf, posCmdBytes,
      CMD_CURSOR_POSITION, h, hlen, Nat.add_comm]

theorem textCmds_pair (a y : Nat) (ch : Char) (rest : List (List Nat)) :
    textCmds (posCmdBytes a y :: encodeAscii [ch] :: rest) =
      encodeAscii [ch] :: textCmds rest := by
  simp [textCmds, List.filter_cons, isPosCmd_posCmdBytes, isPosCmd_encodeAscii_single]

theorem countPosRow_emitRow_same (y : Nat) :
    ∀ (bs ss : List Char) (x : Nat),
      countPosRow (emitRow y bs ss x) (y + 1) = (diffColsAux bs ss x).length := by
  intro bs
  induction bs with
  | nil => intro ss x; cases ss <;> simp [emitRow, diffColsAux, countPosRow]
  | cons b bs' ih =>
      intro ss x
      cases ss with
      | nil => simp [emitRow, diffColsAux, countPosRow]
      | cons s ss' =>
          by_cases hb : b = s
          · simp [emitRow, diffColsAux, hb, ih]
          · simp only [emitRow, if_neg hb, List.cons_append, List.nil_append,
              diffColsAux, List.singleton_append]
            rw [countPosRow_pair]
            simp [ih, Nat.add_comm]

theorem countPosRow_emitRow_other (y r : Nat) (h : r ≠ y + 1) :
    ∀ (bs ss : List Char) (x : Nat), countPosRow (emitRow y bs ss x) r = 0 := by
  intro bs
  induction bs with
  | nil => intro ss x; cases ss <;> simp [emitRow, countPosRow]
  | cons b bs' ih =>
      intro ss x
      cases ss with
      | nil => simp [emitRow, countPosRow]
      | cons s ss' =>
          by_cases hb : b = s
          · simp [emitRow, hb, ih]
          · simp only [emitRow, if_neg hb, List.cons_append, List.nil_append]
            rw [countPosRow_pair]
            simp [ih, Ne.symm h]

theorem textCmds_emitRow_length (y : Nat) :
    ∀ (bs ss : List Char) (x : Nat),
      (textCmds (emitRow y bs ss x)).length = (diffColsAux bs ss x).length := by
  intro bs
  induction bs with
  | nil => intro ss x; cases ss <;> simp [emitRow, diffColsAux, textCmds]
  | cons b bs' ih =>
      intro ss x
      cases ss with
      | nil => simp [emitRow, diffColsAux, textCmds]
      | cons s ss' =>
          by_cases hb : b = s
          · simp [emitRow, diffColsAux, hb, ih]
          · simp only [emitRow, if_neg hb, List.cons_append, List.nil_append,
              diffColsAux, List.singleton_append]
            rw [textCmds_pair]
            simp [ih]

theorem textCmds_emitRow_len1 (y : Nat) :
    ∀ (bs ss : List Char) (x : Nat), (∀ ch ∈ bs, ch.toNat ≤ 127) →
      ∀ t ∈ textCmds (emitRow y bs ss x), t.length = 1 := by
  intro bs
  induction bs with
  | nil => intro ss x _ t ht; cases ss <;> simp [emitRow, textCmds] at ht
  | cons b bs' ih =>
      intro ss x hascii t ht
      cases ss with
      | nil => simp [emitRow, textCmds] at ht
      | cons s ss' =>
          by_cases hb : b = s
          · simp only [emitRow, hb, if_pos rfl, List.nil_append] at ht
            exact ih ss' (x + 1) (fun ch hch => hascii ch (List.mem_cons_of_mem _ hch)) t ht
          · simp only [emitRow, if_neg hb, List.cons_append, List.nil_append] at ht
            rw [textCmds_pair] at ht
            rcases List.mem_cons.mp ht with ht | ht
            · subst ht
              simp [encodeAscii, hascii b (List.mem_cons_self _ _)]
            · exact ih ss' (x + 1) (fun ch hch => hascii ch (List.mem_cons_of_mem _ hch))
                t ht

theorem fit20_self (row : List Char) (h : row.length = 20) : fit20 row = row := by
  simp [fit20, h, List.take_of_length_le (le_of_eq h)]

/-- Claim C1 counterexample: for frames differing in exactly one contiguous
run of k = 2 columns on row 1 (baseline all spaces, new frame "AB"),
`write_frame` emits TWO cursor-position commands and TWO one-character text
commands for that row, not the claimed single position command and single
length-2 text command: the renderer works per changed character, never per
run. -/
theorem c1_writeFrame_emits_per_character :
    diffCols (fit20 "AB".toList) startAnimator.st1 = List.range' 0 2 ∧
    fit20 "".toList = startAnimator.st2 ∧
    (writeFrame defaultConfig startAnimator startCtrl "AB".toList "".toList).2.2
      = none ∧
    countPosRow
      ((writeFrame defaultConfig startAnimator startCtrl "AB".toList
        "".toList).2.1.trace.drop startCtrl.trace.length) 1 = 2 ∧
    countPosRow
      ((writeFrame defaultConfig startAnimator startCtrl "AB".toList
        "".toList).2.1.trace.drop startCtrl.trace.length) 1 ≠ 1 ∧
    (textCmds
      ((writeFrame defaultConfig startAnimator startCtrl "AB".toList
        "".toList).2.1.trace.drop startCtrl.trace.length)).length = 2 := by
  decide

/-- Claim C1 (corrected): for a Normal-mode display on a fault-free
transport, when the new frame differs from the renderer baseline in exactly
one contiguous run of k columns confined to a single row, `write_frame`
succeeds and the wire commands it emits are exactly k cursor-position
commands targeting the changed row and k raw-text commands of length 1 (one
position + one single-character write per changed cell, in column order),
with no commands targeting the unchanged row: the per-run batching the
claim describes does not exist in the code. -/
theorem c1_writeFrame_run_commands (cfg : CDConfig) (a : DiffAnimator) (c : Ctrl)
    (b1 b2 : List Char) (s k : Nat)
    (hm : c.currentMode = DisplayMode.normal) (hhw : c.hw = [])
    (h1 : a.st1.length = 20) (h2 : a.st2.length = 20)
    (hb1 : b1.length = 20) (hb2 : b2.length = 20)
    (hascii : ∀ ch ∈ b1 ++ b2, ch.toNat ≤ 127) :
    (writeFrame cfg a c b1 b2).2.2 = none ∧
    (diffCols b1 a.st1 = List.range' s k ∧ b2 = a.st2 →
      countPosRow ((writeFrame cfg a c b1 b2).2.1.trace.drop c.trace.length) 1 = k ∧
      countPosRow ((writeFrame cfg a c b1 b2).2.1.trace.drop c.trace.length) 2 = 0 ∧
      (textCmds ((writeFrame cfg a c b1 b2).2.1.trace.drop c.trace.length)).length = k ∧
      ∀ t ∈ textCmds ((writeFrame cfg a c b1 b2).2.1.trace.drop c.trace.length),
        t.length = 1) ∧
    (diffCols b2 a.st2 = List.range' s k ∧ b1 = a.st1 →
      countPosRow ((writeFrame cfg a c b1 b2).2.1.trace.drop c.trace.length) 2 = k ∧
      countPosRow ((writeFrame cfg a c b1 b2).2.1.trace.drop c.trace.length) 1 = 0 ∧
      (textCmds ((writeFrame cfg a c b1 b2).2.1.trace.drop c.trace.length)).length = k ∧
      ∀ t ∈ textCmds ((writeFrame cfg a c b1 b2).2.1.trace.drop c.trace.length),
        t.length = 1) := by
  obtain ⟨he, _, _, _, ht⟩ := writeFrame_spec cfg a c b1 b2 hm hhw h1 h2
  have hsuffix : (writeFrame cfg a c b1 b2).2.1.trace.drop c.trace.length =
      emitRow 0 (fit20 b1) a.st1 0 ++ emitRow 1 (fit20 b2) a.st2 0 := by
    rw [ht, List.append_assoc, List.drop_left]
  rw [fit20_self b1 hb1, fit20_self b2 hb2] at hsuffix
  have hascii1 : ∀ ch ∈ b1, ch.toNat ≤ 127 := fun ch hch =>
    hascii ch (List.mem_append_left _ hch)
  have hascii2 : ∀ ch ∈ b2, ch.toNat ≤ 127 := fun ch hch =>
    hascii ch (List.mem_append_right _ hch)
  refine ⟨he, ?_, ?_⟩
  · rintro ⟨hd, heq⟩
    subst heq
    have hnil : emitRow 1 a.st2 a.st2 0 = [] := emitRow_self 1 a.st2 0
    rw [hsuffix, hnil, List.append_nil]
    refine ⟨?_, ?_, ?_, ?_⟩
    · have := countPosRow_emitRow_same 0 b1 a.st1 0
      rw [this]
      have : diffColsAux b1 a.st1 0 = List.range' s k := hd
      rw [this, List.length_range']
    · exact countPosRow_emitRow_other 0 2 (by omega) b1 a.st1 0
    · rw [textCmds_emitRow_length 0 b1 a.st1 0]
      have : diffColsAux b1 a.st1 0 = List.range' s k := hd
      rw [this, List.length_range']
    · exact textCmds_emitRow_len1 0 b1 a.st1 0 hascii1
  · rintro ⟨hd, heq⟩
    subst heq
    have hnil : emitRow 0 a.st1 a.st1 0 = [] := emitRow_self 0 a.st1 0
    rw [hsuffix, hnil, List.nil_append]
    refine ⟨?_, ?_, ?_, ?_⟩
    · have := countPosRow_emitRow_same 1 b2 a.st2 0
      rw [this]
      have : diffColsAux b2 a.st2 0 = List.range' s k := hd
      rw [this, List.length_range']
    · exact countPosRow_emitRow_other 1 1 (by omega) b2 a.st2 0
    · rw [textCmds_emitRow_length 1 b2 a.st2 0]
      have : diffColsAux b2 a.st2 0 = List.range' s k := hd
      rw [this, List.length_range']
    · exact textCmds_emitRow_len1 1 b2 a.st2 0 hascii2

/-- Claim C1 witness: the corrected per-character accounting at the concrete
run of length 2 ("AB" against a blank baseline): 2 position commands and 2
one-character text commands on row 1, none on row 2. -/
theorem c1_writeFrame_run_commands_witness :
    (writeFrame defaultConfig startAnimator startCtrl
      (fit20 "AB".toList) (fit20 "".toList)).2.2 = none ∧
    (diffCols (fit20 "AB".toList) startAnimator.st1 = List.range' 0 2 ∧
        fit20 "".toList = startAnimator.st2 →
      countPosRow ((writeFrame defaultConfig startAnimator startCtrl
        (fit20 "AB".toList) (fit20 "".toList)).2.1.trace.drop
          startCtrl.trace.length) 1 = 2 ∧
      countPosRow ((writeFrame defaultConfig startAnimator startCtrl
        (fit20 "AB".toList) (fit20 "".toList)).2.1.trace.drop
          startCtrl.trace.length) 2 = 0 ∧
      (textCmds ((writeFrame defaultConfig startAnimator startCtrl
        (fit20 "AB".toList) (fit20 "".toList)).2.1.trace.drop
          startCtrl.trace.length)).length = 2 ∧
      ∀ t ∈ textCmds ((writeFrame defaultConfig startAnimator startCtrl
        (fit20 "AB".toList) (fit20 "".toList)).2.1.trace.drop
          startCtrl.trace.length), t.length = 1) ∧
    (diffCols (fit20 "".toList) startAnimator.st2 = List.range' 0 2 ∧
        fit20 "AB".toList = startAnimator.st1 →
      countPosRow ((writeFrame defaultConfig startAnimator startCtrl
        (fit20 "AB".toList) (fit20 "".toList)).2.1.trace.drop
          startCtrl.trace.length) 2 = 2 ∧
      countPosRow ((writeFrame defaultConfig startAnimator startCtrl
        (fit20 "AB".toList) (fit20 "".toList)).2.1.trace.drop
          startCtrl.trace.length) 1 = 0 ∧
      (textCmds ((writeFrame defaultConfig startAnimator startCtrl
        (fit20 "AB".toList) (fit20 "".toList)).2.1.trace.drop
          startCtrl.trace.length)).length = 2 ∧
      ∀ t ∈ textCmds ((writeFrame defaultConfig startAnimator startCtrl
        (fit20 "AB".toList) (fit20 "".toList)).2.1.trace.drop
          startCtrl.trace.length), t.length = 1) :=
  c1_writeFrame_run_commands defaultConfig startAnimator startCtrl
    (fit20 "AB".toList) (fit20 "".toList) 0 2 rfl rfl (by decide) (by decide)
    (by decide) (by decide) (by decide)

/-- Claim C7 witness: a brightness call whose only transport write fails
leaves Mode and ActiveWindow of the fresh controller unchanged. -/
theorem c7_first_write_failure_preserves_state_witness :
    (runOp defaultConfig (Op.setBrightness 2)
      { startCtrl with hw := [false] }).1.currentMode =
      ({ startCtrl with hw := [false] } : Ctrl).currentMode ∧
    (runOp defaultConfig (Op.setBrightness 2)
      { startCtrl with hw := [false] }).1.activeWindow =
      ({ startCtrl with hw := [false] } : Ctrl).activeWindow :=
  c7_first_write_failure_preserves_state defaultConfig (Op.setBrightness 2)
    { startCtrl with hw := [false] } rfl

theorem setChar_row1 (sim : DisplaySimulator) (x : Nat) (hx : x < 20) (ch : Char) :
    sim.setChar (x : Int) 0 ch = { sim with line1 := sim.line1.set x ch } := by
  have hx' : (x : Int) < 20 := by exact_mod_cast hx
  simp [DisplaySimulator.setChar, hx']

theorem setChar_row2 (sim : DisplaySimulator) (x : Nat) (hx : x < 20) (ch : Char) :
    sim.setChar (x : Int) 1 ch = { sim with line2 := sim.line2.set x ch } := by
  have hx' : (x : Int) < 20 := by exact_mod_cast hx
  simp [DisplaySimulator.setChar, hx']

theorem spliceRow_nil (row : List Char) (q : Nat) : spliceRow row q [] = row := by
  simp [spliceRow]

theorem spliceRow_set : ∀ (row : List Char) (q : Nat) (ch : Char) (rest : List Char),
    q < row.length →
    spliceRow (row.set q ch) (q + 1) rest = spliceRow row q (ch :: rest)
  | [], q, ch, rest, h => by simp at h
  | r :: rs, 0, ch, rest, h => by
      have e : 1 + rest.length = rest.length + 1 := by omega
      simp [spliceRow, e, List.drop_succ_cons]
  | r :: rs, q + 1, ch, rest, h => by
      have ih := spliceRow_set rs q ch rest (by simpa using h)
      have e1 : q + 1 + 1 + rest.length = (q + 1 + rest.length) + 1 := by omega
      have e2 : q + 1 + (rest.length + 1) = (q + (rest.length + 1)) + 1 := by omega
      have e3 : q + (rest.length + 1) = q + 1 + rest.length := by omega
      simp only [spliceRow, List.set_cons_succ, List.take_succ_cons, e1, e2,
        List.length_cons, List.drop_succ_cons, List.cons_append] at ih ⊢
      rw [e3]
      rw [ih, e3]

theorem spliceRow_length (row : List Char) (q : Nat) (seg : List Char)
    (hrow : row.length = 20) (hq : q + seg.length ≤ 20) :
    (spliceRow row q seg).length = 20 := by
  simp [spliceRow, List.length_take, List.length_drop, hrow]
  omega

theorem regionRow_spliceRow (row : List Char) (q : Nat) (seg : List Char)
    (hrow : row.length = 20) (hq : q + seg.length ≤ 20) (hseg : 1 ≤ seg.length) :
    regionRow (spliceRow row q seg) (q + 1) (q + seg.length) = seg := by
  have hA : (row.take q).length = q := by rw [List.length_take]; omega
  rw [regionRow, spliceRow, List.append_assoc]
  simp only [Nat.add_sub_cancel]
  rw [List.drop_left' hA]
  have he : q + seg.length - (q + 1) + 1 = seg.length := by omega
  rw [he, List.take_left' rfl]

theorem writeWindowAux_row1 : ∀ (seg : List Char) (sim : DisplaySimulator) (q : Nat),
    sim.line1.length = 20 → q + seg.length ≤ 20 →
    writeWindowAux 1 sim seg (q : Int) = { sim with line1 := spliceRow sim.line1 q seg }
  | [], sim, q, hrow, h => by
      simp [writeWindowAux, spliceRow_nil]
  | ch :: rest, sim, q, hrow, h => by
      have hq : q < 20 := by simp at h; omega
      have hstep : sim.setChar (q : Int) ((1 : Int) - 1) ch =
          { sim with line1 := sim.line1.set q ch } := by
        simpa using setChar_row1 sim q hq ch
      have hcast : ((q : Int) + 1) = ((q + 1 : Nat) : Int) := by push_cast; ring
      rw [writeWindowAux, hstep, hcast,
        writeWindowAux_row1 rest _ (q + 1) (by simpa using hrow) (by simp at h ⊢; omega)]
      simp [spliceRow_set sim.line1 q ch rest (by omega)]

theorem writeWindowAux_row2 : ∀ (seg : List Char) (sim : DisplaySimulator) (q : Nat),
    sim.line2.length = 20 → q + seg.length ≤ 20 →
    writeWindowAux 2 sim seg (q : Int) = { sim with line2 := spliceRow sim.line2 q seg }
  | [], sim, q, hrow, h => by
      simp [writeWindowAux, spliceRow_nil]
  | ch :: rest, sim, q, hrow, h => by
      have hq : q < 20 := by simp at h; omega
      have hstep : sim.setChar (q : Int) ((2 : Int) - 1) ch =
          { sim with line2 := sim.line2.set q ch } := by
        simpa using setChar_row2 sim q hq ch
      have hcast : ((q : Int) + 1) = ((q + 1 : Nat) : Int) := by push_cast; ring
      rw [writeWindowAux, hstep, hcast,
        writeWindowAux_row2 rest _ (q + 1) (by simpa using hrow) (by simp at h ⊢; omega)]
      simp [spliceRow_set sim.line2 q ch rest (by omega)]

theorem padded_length (buf : List Char) (w : Int) (hw : 0 < w) :
    (ljustI (pyLastSlice buf w) w).length = w.toNat := by
  simp [ljustI, pyLastSlice, hw, List.length_drop]
  omega

theorem applyPrintableChar_vp (core : SimCore) (l s e : Nat) (ch : Char)
    (hm : core.sim.currentMode = DisplayMode.viewport)
    (hwin : core.sim.activeWindow = some (l, s, e))
    (hy : core.simY = l)
    (hl : l = 1 ∨ l = 2)
    (hs : 1 ≤ s) (hse : s ≤ e) (he : e ≤ 20)
    (h1 : core.sim.line1.length = 20) (h2 : core.sim.line2.length = 20) :
    (applyPrintableChar core ch).sim.currentMode = DisplayMode.viewport ∧
    (applyPrintableChar core ch).sim.activeWindow = some (l, s, e) ∧
    (applyPrintableChar core ch).sim.viewportBuffer =
      core.sim.viewportBuffer ++ [ch] ∧
    (applyPrintableChar core ch).sim.line1.length = 20 ∧
    (applyPrintableChar core ch).sim.line2.length = 20 ∧
    rowOf (applyPrintableChar core ch).sim l =
      spliceRow (rowOf core.sim l) (s - 1)
        (ljustI (pyLastSlice (core.sim.viewportBuffer ++ [ch])
          ((e : Int) - (s : Int) + 1)) ((e : Int) - (s : Int) + 1)) ∧
    (20 < core.simX + 1 →
      (applyPrintableChar core ch).simX = 1 ∧
      (applyPrintableChar core ch).simY =
        (if core.simY < 2 then core.simY + 1 else core.simY)) ∧
    (¬ 20 < core.simX + 1 →
      (applyPrintableChar core ch).simX = core.simX + 1 ∧
      (applyPrintableChar core ch).simY = core.simY) := by
  have hw0 : (0 : Int) < (e : Int) - (s : Int) + 1 := by omega
  have hplen :
      (ljustI (pyLastSlice (core.sim.viewportBuffer ++ [ch])
        ((e : Int) - (s : Int) + 1)) ((e : Int) - (s : Int) + 1)).length = e - s + 1 := by
    rw [padded_length _ _ hw0]
    omega
  have hq : (s - 1) +
      (ljustI (pyLastSlice (core.sim.viewportBuffer ++ [ch])
        ((e : Int) - (s : Int) + 1)) ((e : Int) - (s : Int) + 1)).length ≤ 20 := by
    rw [hplen]; omega
  have hcast : ((s : Int) - 1) = ((s - 1 : Nat) : Int) := by omega
  have hsim : (applyPrintableChar core ch).sim =
      DisplaySimulator.writeWindow { core.sim with
        viewportBuffer := core.sim.viewportBuffer ++ [ch] } l s
        (ljustI (pyLastSlice (core.sim.viewportBuffer ++ [ch])
          ((e : Int) - (s : Int) + 1)) ((e : Int) - (s : Int) + 1)) := by
    simp only [applyPrintableChar, hwin, hm, hy, and_self, if_pos, ite_true]
    split <;> rfl
  have hXY :
      (applyPrintableChar core ch).simX =
        (if 20 < core.simX + 1 then 1 else core.simX + 1) ∧
      (applyPrintableChar core ch).simY =
        (if 20 < core.simX + 1 then
          (if core.simY < 2 then core.simY + 1 else core.simY) else core.simY) := by
    simp only [applyPrintableChar, hwin, hm, hy, and_self, if_pos, ite_true]
    refine ⟨?_, ?_⟩ <;> (split <;> rfl)
  rcases hl with hl | hl <;> subst hl
  · have hww : DisplaySimulator.writeWindow { core.sim with
        viewportBuffer := core.sim.viewportBuffer ++ [ch] } 1 s
        (ljustI (pyLastSlice (core.sim.viewportBuffer ++ [ch])
          ((e : Int) - (s : Int) + 1)) ((e : Int) - (s : Int) + 1)) =
        { core.sim with
          viewportBuffer := core.sim.viewportBuffer ++ [ch],
          line1 := spliceRow core.sim.line1 (s - 1)
            (ljustI (pyLastSlice (core.sim.viewportBuffer ++ [ch])
              ((e : Int) - (s : Int) + 1)) ((e : Int) - (s : Int) + 1)) } := by
      rw [DisplaySimulator.writeWindow, Nat.cast_one, hcast,
        writeWindowAux_row1 _ _ (s - 1) (by simpa using h1) hq]
    rw [hsim, hww]
    refine ⟨by simpa using hm, by simpa using hwin, by simp,
      by simpa using spliceRow_length _ _ _ h1 hq,
      by simpa using h2, by simp [rowOf], ?_, ?_⟩
    · intro hwrap
      exact ⟨by rw [hXY.1]; simp [hwrap], by rw [hXY.2]; simp [hwrap]⟩
    · intro hwrap
      exact ⟨by rw [hXY.1]; simp [hwrap], by rw [hXY.2]; simp [hwrap]⟩
  · have hww : DisplaySimulator.writeWindow { core.sim with
        viewportBuffer := core.sim.viewportBuffer ++ [ch] } 2 s
        (ljustI (pyLastSlice (core.sim.viewportBuffer ++ [ch])
          ((e : Int) - (s : Int) + 1)) ((e : Int) - (s : Int) + 1)) =
        { core.sim with
          viewportBuffer := core.sim.viewportBuffer ++ [ch],
          line2 := spliceRow core.sim.line2 (s - 1)
            (ljustI (pyLastSlice (core.sim.viewportBuffer ++ [ch])
              ((e : Int) - (s : Int) + 1)) ((e : Int) - (s : Int) + 1)) } := by
      rw [DisplaySimulator.writeWindow, Nat.cast_ofNat, hcast,
        writeWindowAux_row2 _ _ (s - 1) (by simpa using h2) hq]
    rw [hsim, hww]
    refine ⟨by simpa using hm, by simpa using hwin, by simp,
      by simpa using h1,
      by simpa using spliceRow_length _ _ _ h2 hq, by simp [rowOf], ?_, ?_⟩
    · intro hwrap
      exact ⟨by rw [hXY.1]; simp [hwrap], by rw [hXY.2]; simp [hwrap]⟩
    · intro hwrap
      exact ⟨by rw [hXY.1]; simp [hwrap], by rw [hXY.2]; simp [hwrap]⟩

theorem viewportFold (l s e : Nat) (hl : l = 1 ∨ l = 2)
    (hs : 1 ≤ s) (hse : s ≤ e) (he : e ≤ 20) :
    ∀ (text : List Char) (core : SimCore),
      core.sim.currentMode = DisplayMode.viewport →
      core.sim.activeWindow = some (l, s, e) →
      core.simY = l →
      core.sim.line1.length = 20 → core.sim.line2.length = 20 →
      (l = 2 ∨ core.simX + text.length ≤ 21) →
      (text.foldl applyPrintableChar core).sim.currentMode = DisplayMode.viewport ∧
      (text.foldl applyPrintableChar core).sim.activeWindow = some (l, s, e) ∧
      (text.foldl applyPrintableChar core).sim.viewportBuffer =
        core.sim.viewportBuffer ++ text ∧
      (text.foldl applyPrintableChar core).sim.line1.length = 20 ∧
      (text.foldl applyPrintableChar core).sim.line2.length = 20 ∧
      (text ≠ [] →
        regionRow (rowOf (text.foldl applyPrintableChar core).sim l) s e =
          ljustI (pyLastSlice (text.foldl applyPrintableChar core).sim.viewportBuffer
            ((e : Int) - (s : Int) + 1)) ((e : Int) - (s : Int) + 1)) := by
  intro text
  induction text with
  | nil =>
      intro core hm hwin hy h1 h2 hfit
      exact ⟨hm, hwin, by simp, h1, h2, fun h => absurd rfl h⟩
  | cons ch rest ih =>
      intro core hm hwin hy h1 h2 hfit
      obtain ⟨sm, sw, sbuf, sl1, sl2, srow, swrap, snow⟩ :=
        applyPrintableChar_vp core l s e ch hm hwin hy hl hs hse he h1 h2
      have hw0 : (0 : Int) < (e : Int) - (s : Int) + 1 := by omega
      have hplen :
          (ljustI (pyLastSlice (core.sim.viewportBuffer ++ [ch])
            ((e : Int) - (s : Int) + 1)) ((e : Int) - (s : Int) + 1)).length
            = e - s + 1 := by
        rw [padded_length _ _ hw0]; omega
      have hrowlen : (rowOf core.sim l).length = 20 := by
        rcases hl with h | h <;> simp [rowOf, h, h1, h2]
      have hreg : regionRow (rowOf (applyPrintableChar core ch).sim l) s e =
          ljustI (pyLastSlice (applyPrintableChar core ch).sim.viewportBuffer
            ((e : Int) - (s : Int) + 1)) ((e : Int) - (s : Int) + 1) := by
        have hr := regionRow_spliceRow (rowOf core.sim l) (s - 1)
          (ljustI (pyLastSlice (core.sim.viewportBuffer ++ [ch])
            ((e : Int) - (s : Int) + 1)) ((e : Int) - (s : Int) + 1))
          hrowlen (by omega) (by omega)
        have e1 : s - 1 + 1 = s := by omega
        have e2 : s - 1 +
            (ljustI (pyLastSlice (core.sim.viewportBuffer ++ [ch])
              ((e : Int) - (s : Int) + 1)) ((e : Int) - (s : Int) + 1)).length = e := by
          omega
        rw [e1, e2] at hr
        rw [srow, hr, sbuf]
      cases rest with
      | nil =>
          refine ⟨sm, sw, by simpa using sbuf, sl1, sl2, fun _ => ?_⟩
          simpa using hreg
      | cons r rest' =>
          have hy' : (applyPrintableChar core ch).simY = l := by
            rcases hl with h | h
            · subst h
              have hnw : ¬ 20 < core.simX + 1 := by
                rcases hfit with h2' | h2'
                · omega
                · simp at h2'; omega
              exact (snow hnw).2.trans hy
            · subst h
              by_cases hw : 20 < core.simX + 1
              · simp [(swrap hw).2, hy]
              · simp [(snow hw).2, hy]
          have hfit' : l = 2 ∨
              (applyPrintableChar core ch).simX + (r :: rest').length ≤ 21 := by
            rcases hfit with h | h
            · exact Or.inl h
            · rcases hl with h1' | h1'
              · right
                have hnw : ¬ 20 < core.simX + 1 := by simp at h; omega
                rw [(snow hnw).1]
                simp at h ⊢
                omega
              · exact Or.inl h1'
          obtain ⟨im, iw, ibuf, il1, il2, ireg⟩ :=
            ih (applyPrintableChar core ch) sm sw hy' sl1 sl2 hfit'
          refine ⟨im, iw, ?_, il1, il2, fun _ => ?_⟩
          · rw [List.foldl_cons, ibuf, sbuf]
            simp
          · rw [List.foldl_cons]
            exact ireg (by simp)

theorem encodeAscii_of_printable (text : List Char)
    (h : ∀ ch ∈ text, 32 ≤ ch.toNat ∧ ch.toNat ≤ 126) :
    encodeAscii text = text.map Char.toNat := by
  induction text with
  | nil => rfl
  | cons ch rest ih =>
      have hch := h ch (List.mem_cons_self _ _)
      simp [encodeAscii, List.filter_cons, show ch.toNat ≤ 127 by omega] at ih ⊢
      exact ih fun c hc => h c (List.mem_cons_of_mem _ hc)

theorem decodeStrict_map_toNat (text : List Char) :
    decodeStrict (text.map Char.toNat) = text := by
  simp [decodeStrict, List.map_map, Function.comp_def, Char.ofNat_toNat]

theorem parseAndApplyCommand_printable (core : SimCore) (text : List Char)
    (h : ∀ ch ∈ text, 32 ≤ ch.toNat ∧ ch.toNat ≤ 126) :
    parseAndApplyCommand core (text.map Char.toNat) =
      text.foldl applyPrintableChar core := by
  have hall : (text.map Char.toNat).all (fun b => decide (32 ≤ b ∧ b ≤ 126)) = true := by
    rw [List.all_eq_true]
    intro b hb
    rcases List.mem_map.mp hb with ⟨ch, hch, rfl⟩
    simpa using h ch hch
  cases text with
  | nil =>
      simp [parseAndApplyCommand, CMD_CLEAR, CMD_INIT, CMD_CANCEL,
        CMD_STRING_UPPER, CMD_STRING_LOWER, CMD_SCROLL_MARQUEE, CMD_WINDOW_SET,
        CMD_CURSOR_POSITION, CMD_CURSOR_HOME, CMD_CURSOR_LEFT, CMD_CURSOR_RIGHT,
        CMD_CURSOR_UP, CMD_CURSOR_DOWN, CMD_BRIGHTNESS, CMD_DISPLAY_ON,
        CMD_DISPLAY_OFF, CMD_CURSOR_ON, CMD_CURSOR_OFF, CMD_OVERWRITE_MODE,
        CMD_HORIZONTAL_SCROLL, CMD_VERTICAL_SCROLL, List.isPrefixOf, decodeStrict]
  | cons ch rest =>
      have hch := h ch (List.mem_cons_self _ _)
      have h12 : ch.toNat ≠ 12 := by omega
      have h24 : ch.toNat ≠ 24 := by omega
      have h27 : ch.toNat ≠ 27 := by omega
      have h27' : ¬ (27 = ch.toNat) := by omega
      rw [parseAndApplyCommand]
      rw [if_neg (by simp [CMD_CLEAR, CMD_INIT, h12, h27])]
      rw [if_neg (by simp [CMD_CANCEL, h24])]
      rw [if_neg (by simp [CMD_STRING_UPPER, List.isPrefixOf, h27'])]
      rw [if_neg (by simp [CMD_STRING_LOWER, List.isPrefixOf, h27'])]
      rw [if_neg (by simp [CMD_SCROLL_MARQUEE, List.isPrefixOf, h27'])]
      rw [if_neg (by simp [CMD_WINDOW_SET, List.isPrefixOf, h27'])]
      rw [if_neg (by simp [CMD_CURSOR_POSITION, List.isPrefixOf, h27'])]
      rw [if_neg (by simp [CMD_CURSOR_HOME, h27])]
      rw [if_neg (by simp [CMD_CURSOR_LEFT, h27])]
      rw [if_neg (by simp [CMD_CURSOR_RIGHT, h27])]
      rw [if_neg (by simp [CMD_CURSOR_UP, h27])]
      rw [if_neg (by simp [CMD_CURSOR_DOWN, h27])]
      rw [if_neg (by simp [CMD_BRIGHTNESS, List.isPrefixOf, h27'])]
      rw [if_neg (by simp [CMD_DISPLAY_ON, h27])]
      rw [if_neg (by simp [CMD_DISPLAY_OFF, h27])]
      rw [if_neg (by simp [CMD_CURSOR_ON, h27])]
      rw [if_neg (by simp [CMD_CURSOR_OFF, h27])]
      rw [if_neg (by simp [CMD_OVERWRITE_MODE, h27])]
      rw [if_neg (by simp [CMD_HORIZONTAL_SCROLL, h27])]
      rw [if_neg (by simp [CMD_VERTICAL_SCROLL, h27])]
      rw [if_pos (by simpa using hall)]
      rw [decodeStrict_map_toNat]

set_option maxRecDepth 4000 in
/-- Claim C2 counterexample: with window (line=1, start=4, end=10) the claim
fails for long writes. Writing the 18-character text "ABCDEFGHIJKLMNOPQR"
into the viewport appends only the first 17 characters to the accumulation
buffer (the mirrored cursor walks off row 1 at column 20 and the remaining
characters are dropped), so columns 4-10 read "KLMNOPQ" — the last 7 of the
accumulated 17 — instead of "LMNOPQR", the last 7 of the full text that the
claim predicts. -/
theorem c2_writeViewport_overflow_counterexample :
    (writeViewport (enterViewportMode defaultConfig
        (setWindow defaultConfig startCtrl 1 4 10).1).1 1
        "ABCDEFGHIJKLMNOPQR".toList false).1.simState.sim.viewportBuffer =
      "ABCDEFGHIJKLMNOPQ".toList ∧
    (writeViewport (enterViewportMode defaultConfig
        (setWindow defaultConfig startCtrl 1 4 10).1).1 1
        "ABCDEFGHIJKLMNOPQR".toList false).1.simState.sim.viewportBuffer ≠
      (enterViewportMode defaultConfig
        (setWindow defaultConfig startCtrl 1 4 10).1).1.simState.sim.viewportBuffer ++
        "ABCDEFGHIJKLMNOPQR".toList ∧
    regionRow (rowOf (writeViewport (enterViewportMode defaultConfig
        (setWindow defaultConfig startCtrl 1 4 10).1).1 1
        "ABCDEFGHIJKLMNOPQR".toList false).1.simState.sim 1) 4 10 =
      "KLMNOPQ".toList ∧
    regionRow (rowOf (writeViewport (enterViewportMode defaultConfig
        (setWindow defaultConfig startCtrl 1 4 10).1).1 1
        "ABCDEFGHIJKLMNOPQR".toList false).1.simState.sim 1) 4 10 ≠
      ljustI (pyLastSlice ((enterViewportMode defaultConfig
        (setWindow defaultConfig startCtrl 1 4 10).1).1.simState.sim.viewportBuffer ++
        "ABCDEFGHIJKLMNOPQR".toList) ((10 : Int) - (4 : Int) + 1))
        ((10 : Int) - (4 : Int) + 1) := by
  decide

/-- Claim C2 (corrected): in Viewport mode with active window
(line, start, end), a `write_viewport(line, text)` of nonempty printable
text appends the text to the accumulation buffer and leaves columns
start..end of that line showing the last width = end-start+1 characters of
the accumulated text (right-padded with spaces), PROVIDED the write does
not run the mirrored cursor past column 20 of row 1: for a line-1 window
this requires len(text) ≤ 21 - start (line-2 windows wrap back within row
2, so any length is fine); in particular the claim's own example
set_window(1,4,10); write_viewport(1,"VIEWPORTTEXT") yields "ORTTEXT". -/
theorem c2_writeViewport_tail_truncation (c : Ctrl) (l s e : Nat) (text : List Char)
    (hm : c.currentMode = DisplayMode.viewport)
    (hwc : c.activeWindow = some (l, s, e))
    (hsm : c.simState.sim.currentMode = DisplayMode.viewport)
    (hsw : c.simState.sim.activeWindow = some (l, s, e))
    (hhw : c.hw = [])
    (hl : l = 1 ∨ l = 2) (hs : 1 ≤ s) (hse : s ≤ e) (he : e ≤ 20)
    (h1 : c.simState.sim.line1.length = 20) (h2 : c.simState.sim.line2.length = 20)
    (hpr : ∀ ch ∈ text, 32 ≤ ch.toNat ∧ ch.toNat ≤ 126)
    (hne : text ≠ [])
    (hfit : l = 2 ∨ s + text.length ≤ 21) :
    (writeViewport c (l : Int) text false).2 = none ∧
    (writeViewport c (l : Int) text false).1.simState.sim.viewportBuffer =
      c.simState.sim.viewportBuffer ++ text ∧
    regionRow (rowOf (writeViewport c (l : Int) text false).1.simState.sim l) s e =
      ljustI (pyLastSlice (c.simState.sim.viewportBuffer ++ text)
        ((e : Int) - (s : Int) + 1)) ((e : Int) - (s : Int) + 1) := by
  have hrun : writeViewport c (l : Int) text false =
      opBind (sendCursorPositionRaw c s l) fun c1 =>
        sendCommand c1 (encodeAscii text) := by
    simp [writeViewport, hm, hwc]
  have hc1 : sendCursorPositionRaw c s l =
      ({ c with
         simState := { c.simState with simX := s, simY := l },
         trace := c.trace ++ [CMD_CURSOR_POSITION ++ [s, l]] }, none) := by
    rw [sendCursorPositionRaw, sendCommand_nil _ _ hhw, parseAndApplyCommand_cursorPos]
  have hfit' : l = 2 ∨
      ({ c.simState with simX := s, simY := l } : SimCore).simX + text.length ≤ 21 := by
    rcases hfit with h | h
    · exact Or.inl h
    · exact Or.inr (by simpa using h)
  have hfold := viewportFold l s e hl hs hse he text
    { c.simState with simX := s, simY := l } hsm hsw rfl h1 h2 hfit'
  rw [hrun, hc1]
  simp only [opBind]
  rw [sendCommand_nil _ _ (by simp [hhw]),
    encodeAscii_of_printable text hpr, parseAndApplyCommand_printable _ text hpr]
  refine ⟨rfl, ?_, ?_⟩
  · simpa using hfold.2.2.1
  · have := hfold.2.2.2.2.2 hne
    rw [hfold.2.2.1] at this
    simpa using this

set_option maxRecDepth 4000 in
/-- Claim C2 witness: the spec's own example. After `set_window(1,4,10)` and
`enter_viewport_mode()`, writing "VIEWPORTTEXT" appends it to the buffer and
columns 4-10 of row 1 read exactly "ORTTEXT". -/
theorem c2_writeViewport_tail_truncation_witness :
    ((writeViewport (enterViewportMode defaultConfig
        (setWindow defaultConfig startCtrl 1 4 10).1).1 ((1 : Nat) : Int)
        "VIEWPORTTEXT".toList false).2 = none ∧
     (writeViewport (enterViewportMode defaultConfig
        (setWindow defaultConfig startCtrl 1 4 10).1).1 ((1 : Nat) : Int)
        "VIEWPORTTEXT".toList false).1.simState.sim.viewportBuffer =
      (enterViewportMode defaultConfig
        (setWindow defaultConfig startCtrl 1 4 10).1).1.simState.sim.viewportBuffer ++
        "VIEWPORTTEXT".toList ∧
     regionRow (rowOf (writeViewport (enterViewportMode defaultConfig
        (setWindow defaultConfig startCtrl 1 4 10).1).1 ((1 : Nat) : Int)
        "VIEWPORTTEXT".toList false).1.simState.sim 1) 4 10 =
      ljustI (pyLastSlice ((enterViewportMode defaultConfig
        (setWindow defaultConfig startCtrl 1 4 10).1).1.simState.sim.viewportBuffer ++
        "VIEWPORTTEXT".toList) ((10 : Int) - (4 : Int) + 1))
        ((10 : Int) - (4 : Int) + 1)) ∧
    regionRow (rowOf (writeViewport (enterViewportMode defaultConfig
        (setWindow defaultConfig startCtrl 1 4 10).1).1 ((1 : Nat) : Int)
        "VIEWPORTTEXT".toList false).1.simState.sim 1) 4 10 = "ORTTEXT".toList :=
  ⟨c2_writeViewport_tail_truncation
      (enterViewportMode defaultConfig (setWindow defaultConfig startCtrl 1 4 10).1).1
      1 4 10 "VIEWPORTTEXT".toList
      (by decide) (by decide) (by decide) (by decide) (by decide)
      (Or.inl rfl) (by decide) (by decide) (by decide)
      (by decide) (by decide) (by decide) (by decide) (Or.inr (by decide)),
   by decide⟩

theorem writeViewportChars_spec : ∀ (text : List Char) (c : Ctrl), c.hw = [] →
    (writeViewportChars c text).2 = none ∧
    (writeViewportChars c text).1.hw = [] ∧
    (writeViewportChars c text).1.currentMode = c.currentMode ∧
    (writeViewportChars c text).1.activeWindow = c.activeWindow ∧
    (writeViewportChars c text).1.simState =
      text.foldl (fun core ch => parseAndApplyCommand core (encodeAscii [ch]))
        c.simState
  | [], c, hhw => by simp [writeViewportChars, hhw]
  | ch :: rest, c, hhw => by
      rw [writeViewportChars, sendCommand_nil _ _ hhw]
      simp only [opBind]
      have ih := writeViewportChars_spec rest
        { c with simState := parseAndApplyCommand c.simState (encodeAscii [ch]),
                 trace := c.trace ++ [encodeAscii [ch]] } (by simpa using hhw)
      simpa using ih

theorem foldl_parse_single_printable :
    ∀ (text : List Char) (core : SimCore),
      (∀ ch ∈ text, 32 ≤ ch.toNat ∧ ch.toNat ≤ 126) →
      text.foldl (fun core ch => parseAndApplyCommand core (encodeAscii [ch])) core =
        text.foldl applyPrintableChar core
  | [], core, _ => rfl
  | ch :: rest, core, h => by
      have hch := h ch (List.mem_cons_self _ _)
      have hstep : parseAndApplyCommand core (encodeAscii [ch]) =
          applyPrintableChar core ch := by
        rw [encodeAscii_of_printable [ch] (by simpa using hch)]
        simpa using parseAndApplyCommand_printable core [ch] (by simpa using hch)
      rw [List.foldl_cons, List.foldl_cons, hstep]
      exact foldl_parse_single_printable rest _
        (fun c hc => h c (List.mem_cons_of_mem _ hc))

/-- Claim C6 counterexample: the two write paths of `write_viewport` do NOT
always decode identically. For the text "A\nB" (which contains a
non-printable byte), the one-burst path sends a single command that the
simulator ignores wholesale (its printable-text guard fails on the 0x0A
byte), while the character-paced path sends three one-byte commands of
which "A" and "B" are applied: the final simulator states differ. -/
theorem c6_writeViewport_paths_differ :
    (writeViewport (enterViewportMode defaultConfig
        (setWindow defaultConfig startCtrl 1 4 10).1).1 1
        ['A', Char.ofNat 10, 'B'] false).1.simState.sim.viewportBuffer = [] ∧
    (writeViewport (enterViewportMode defaultConfig
        (setWindow defaultConfig startCtrl 1 4 10).1).1 1
        ['A', Char.ofNat 10, 'B'] true).1.simState.sim.viewportBuffer =
      ['A', 'B'] ∧
    (writeViewport (enterViewportMode defaultConfig
        (setWindow defaultConfig startCtrl 1 4 10).1).1 1
        ['A', Char.ofNat 10, 'B'] false).1.simState ≠
    (writeViewport (enterViewportMode defaultConfig
        (setWindow defaultConfig startCtrl 1 4 10).1).1 1
        ['A', Char.ofNat 10, 'B'] true).1.simState := by
  decide

/-- Claim C6 (corrected): for printable-ASCII text (bytes 32..126) the
one-burst path (`char_delay=None`) and the character-at-a-time path of
`write_viewport` leave the simulator in the same final state — same grid,
same mirrored cursor, same viewport buffer — and report the same outcome,
from every controller state on a fault-free transport (in particular the
gate errors coincide when mode or window do not match). -/
theorem c6_writeViewport_paths_agree (c : Ctrl) (line : Int) (text : List Char)
    (hhw : c.hw = []) (hpr : ∀ ch ∈ text, 32 ≤ ch.toNat ∧ ch.toNat ≤ 126) :
    (writeViewport c line text false).1.simState =
      (writeViewport c line text true).1.simState ∧
    (writeViewport c line text false).1.currentMode =
      (writeViewport c line text true).1.currentMode ∧
    (writeViewport c line text false).1.activeWindow =
      (writeViewport c line text true).1.activeWindow ∧
    (writeViewport c line text false).2 = (writeViewport c line text true).2 := by
  by_cases hm : c.currentMode = DisplayMode.viewport
  · rcases hW : c.activeWindow with _ | ⟨wl, ws, we⟩
    · simp [writeViewport, hm, hW]
    · by_cases hline : (wl : Int) = line
      · have hc1 : sendCursorPositionRaw c ws wl =
            ({ c with
               simState := { c.simState with simX := ws, simY := wl },
               trace := c.trace ++ [CMD_CURSOR_POSITION ++ [ws, wl]] }, none) := by
          rw [sendCursorPositionRaw, sendCommand_nil _ _ hhw,
            parseAndApplyCommand_cursorPos]
        have hburst : writeViewport c line text false =
            opBind (sendCursorPositionRaw c ws wl) fun c1 =>
              sendCommand c1 (encodeAscii text) := by
          simp [writeViewport, hm, hW, hline]
        have hpaced : writeViewport c line text true =
            opBind (sendCursorPositionRaw c ws wl) fun c1 =>
              writeViewportChars c1 text := by
          simp [writeViewport, hm, hW, hline]
        rw [hburst, hpaced, hc1]
        simp only [opBind]
        obtain ⟨pe, _, pm, pw, psim⟩ := writeViewportChars_spec text
          { c with
            simState := { c.simState with simX := ws, simY := wl },
            trace := c.trace ++ [CMD_CURSOR_POSITION ++ [ws, wl]] }
          (by simpa using hhw)
        rw [sendCommand_nil _ _ (by simp [hhw]), pe, psim,
          foldl_parse_single_printable text _ hpr,
          encodeAscii_of_printable text hpr, parseAndApplyCommand_printable _ text hpr]
        exact ⟨rfl, by rw [pm], by rw [pw], rfl⟩
      · simp [writeViewport, hm, hW, hline]
  · simp [writeViewport, hm]

set_option maxRecDepth 4000 in
/-- Claim C6 witness: both paths writing "AB" into the (1,4,10) viewport end
in identical simulator states with identical outcomes. -/
theorem c6_writeViewport_paths_agree_witness :
    (writeViewport (enterViewportMode defaultConfig
        (setWindow defaultConfig startCtrl 1 4 10).1).1 1
        ['A', 'B'] false).1.simState =
      (writeViewport (enterViewportMode defaultConfig
        (setWindow defaultConfig startCtrl 1 4 10).1).1 1
        ['A', 'B'] true).1.simState ∧
    (writeViewport (enterViewportMode defaultConfig
        (setWindow defaultConfig startCtrl 1 4 10).1).1 1
        ['A', 'B'] false).1.currentMode =
      (writeViewport (enterViewportMode defaultConfig
        (setWindow defaultConfig startCtrl 1 4 10).1).1 1
        ['A', 'B'] true).1.currentMode ∧
    (writeViewport (enterViewportMode defaultConfig
        (setWindow defaultConfig startCtrl 1 4 10).1).1 1
        ['A', 'B'] false).1.activeWindow =
      (writeViewport (enterViewportMode defaultConfig
        (setWindow defaultConfig startCtrl 1 4 10).1).1 1
        ['A', 'B'] true).1.activeWindow ∧
    (writeViewport (enterViewportMode defaultConfig
        (setWindow defaultConfig startCtrl 1 4 10).1).1 1
        ['A', 'B'] false).2 =
      (writeViewport (enterViewportMode defaultConfig
        (setWindow defaultConfig startCtrl 1 4 10).1).1 1
        ['A', 'B'] true).2 :=
  c6_writeViewport_paths_agree
    (enterViewportMode defaultConfig (setWindow defaultConfig startCtrl 1 4 10).1).1
    1 ['A', 'B'] (by decide) (by decide)
